import Mathlib

/-! # Shuffle: the service handlers, the configuration, the engine and the version

A shallow embedding of `src/service/http_handlers.go`, `src/config`,
`src/engine/engine.go`, `src/consensus/huron/huron.go`, the `run huron` command
and `src/version/version.go`.  Go pointers that the code compares with `nil`
are `Option`s, `(value, error)` results are `Except`, `*big.Int` is `Int`,
`uint64` is `Nat` (no arithmetic is performed on it here).  The collaborators
that the code only calls (the go-ethereum library, the JSON codec, the State,
the KeyStore, the consensus system) are records of functions, so that every
theorem holds for all of their behaviours.  The submission channel is the list
of byte strings sent on it so far; a send appends to it.
-/

namespace Shuffle

abbrev Address := Nat
abbrev Hash := Nat
abbrev Bytes := List Nat
abbrev Error := String

/-- A Go string that the code slices or measures: a sequence of bytes, since
`len` and slicing count bytes. -/
abbrev GoString := List Nat

/-- The bytes of an ASCII literal. -/
def ascii (s : String) : GoString := s.data.map Char.toNat

/-! ## Data model -/

/-- The JSON arguments of `/tx` and `/call`.  `To`, `GasPrice`, `Value` and
`Nonce` are pointers in the source: `none` is the nil pointer. -/
structure SendTxArgs where
  From : Address
  To : Option Address
  Gas : Nat
  GasPrice : Option Int
  Value : Option Int
  Data : String
  Nonce : Option Nat
deriving DecidableEq, Repr

/-- The `txdata` of a go-ethereum `types.Transaction`. -/
structure Transaction where
  AccountNonce : Nat
  Price : Int
  GasLimit : Nat
  Recipient : Option Address
  Amount : Int
  Payload : Bytes
  V : Int
  R : Int
  S : Int
deriving DecidableEq, Repr

/-- The go-ethereum `types.Message` built by `types.NewMessage`. -/
structure Message where
  From : Address
  To : Option Address
  Nonce : Nat
  Amount : Int
  GasLimit : Nat
  GasPrice : Int
  Data : Bytes
  CheckNonce : Bool
deriving DecidableEq, Repr

/-- An `accounts.Account` of the keystore. -/
structure Account where
  Address : Address
  URL : String
deriving DecidableEq, Repr

abbrev Log := Nat

/-- The fields of a go-ethereum `types.Receipt` that the service reads.  `Logs`
is a slice: `none` is the nil slice, `some []` an empty non-nil one. -/
structure Receipt where
  PostState : Bytes
  Status : Nat
  CumulativeGasUsed : Nat
  Bloom : Bytes
  Logs : Option (List Log)
  ContractAddress : Address
  GasUsed : Nat
deriving DecidableEq, Repr

/-- The body of the answer of `GET /tx/{hash}`. -/
structure JsonReceipt where
  Root : Hash
  TransactionHash : Hash
  From : Address
  To : Option Address
  GasUsed : Nat
  CumulativeGasUsed : Nat
  ContractAddress : Address
  Logs : Option (List Log)
  LogsBloom : Bytes
  Status : Nat
deriving DecidableEq, Repr

/-- The body of the answer of `POST /tx` and `POST /rawtx`. -/
structure JsonTxRes where
  TxHash : String
deriving DecidableEq, Repr

/-- The body of the answer of `POST /call`. -/
structure JsonCallRes where
  Data : String
deriving DecidableEq, Repr

/-- The body of the answer of `GET /account/{address}`. -/
structure JsonAccount where
  Address : String
  Balance : Int
  Nonce : Nat
  Code : String
deriving DecidableEq, Repr

/-! ## Collaborators -/

/-- What reading a request body to its end yields. -/
abbrev Body := Except Error String

/-- The library functions the handlers call: go-ethereum (`common`, `hexutil`,
`rlp`, `core/types` with the EIP-155 signer of chain id 1) and `encoding/json`. -/
structure Lib where
  FromHex : String → Bytes
  HexToHash : GoString → Hash
  BytesToHash : Bytes → Hash
  HashHex : Hash → String
  HexDecode : String → Except Error Bytes
  HexEncode : Bytes → String
  RlpDecode : Bytes → Except Error Transaction
  RlpEncode : Transaction → Except Error Bytes
  TxHash : Transaction → Hash
  SignerHash : Transaction → Hash
  SignatureValues : Transaction → Bytes → Except Error (Int × Int × Int)
  Sender : Transaction → Except Error Address
  DecodeSendTxArgs : Body → Except Error SendTxArgs
  MarshalTxRes : JsonTxRes → Except Error String
  MarshalCallRes : JsonCallRes → Except Error String
  MarshalReceipt : JsonReceipt → Except Error String
  HexToAddress : GoString → Address
  AddressHex : Address → String
  MarshalAccount : JsonAccount → Except Error String

/-- The methods of `state.State` the handlers call.  `CheckTx` returns an
`error`: `none` is nil. -/
structure State where
  GetPoolNonce : Address → Nat
  CheckTx : Transaction → Option Error
  Call : Message → Except Error Bytes
  GetTransaction : Hash → Except Error Transaction
  GetReceipt : Hash → Except Error Receipt
  GetBalance : Address → Int
  GetNonce : Address → Nat
  GetCode : Address → Bytes

/-- The methods of `keystore.KeyStore` the handlers call. -/
structure KeyStore where
  Find : Account → Except Error Account
  SignHash : Account → Hash → Except Error Bytes

/-- The fields of `Service` the handlers read; the submission channel is
threaded through the handlers explicitly. -/
structure Service where
  state : State
  keyStore : KeyStore

/-- The request as the handlers see it: `Path` is `r.URL.Path`. -/
structure Request where
  Path : GoString
  Body : Body

/-! ## The response writer of `net/http` -/

/-- An `http.ResponseWriter`: `Status` is `none` until the header is written. -/
structure ResponseWriter where
  Header : List (String × String)
  Status : Option Nat
  Body : String
deriving DecidableEq, Repr

/-- A writer as a handler receives it. -/
def newResponseWriter : ResponseWriter := ⟨[], none, ""⟩

def StatusOK : Nat := 200
def StatusInternalServerError : Nat := 500

/-- The effect of `w.Header().Set(k, v)`. -/
def ResponseWriter.SetHeader (w : ResponseWriter) (k v : String) : ResponseWriter :=
  { w with Header := (k, v) :: w.Header.filter (fun p => p.1 != k) }

/-- The effect of `w.WriteHeader(code)`: only the first call counts. -/
def ResponseWriter.WriteHeader (w : ResponseWriter) (code : Nat) : ResponseWriter :=
  match w.Status with
  | some _ => w
  | none => { w with Status := some code }

/-- The effect of `w.Write(b)`: writes the header with 200 when it was not written. -/
def ResponseWriter.Write (w : ResponseWriter) (b : String) : ResponseWriter :=
  let w := w.WriteHeader StatusOK
  { w with Body := w.Body ++ b }

/-- The effect of `http.Error(w, error, code)`. -/
def httpError (w : ResponseWriter) (error : String) (code : Nat) : ResponseWriter :=
  let w := w.SetHeader "Content-Type" "text/plain; charset=utf-8"
  let w := w.SetHeader "X-Content-Type-Options" "nosniff"
  let w := w.WriteHeader code
  w.Write (error ++ "\n")

/-! ## go-ethereum transaction constructors -/

/-- The unexported `newTransaction` of go-ethereum: a nil amount or price is 0,
and the signature values start at 0. -/
def newTransaction (nonce : Nat) (recipient : Option Address) (amount : Option Int)
    (gasLimit : Nat) (gasPrice : Option Int) (data : Bytes) : Transaction :=
  { AccountNonce := nonce
    Recipient := recipient
    Payload := data
    Amount := amount.getD 0
    GasLimit := gasLimit
    Price := gasPrice.getD 0
    V := 0
    R := 0
    S := 0 }

def NewTransaction (nonce : Nat) (recipient : Address) (amount : Option Int)
    (gasLimit : Nat) (gasPrice : Option Int) (data : Bytes) : Transaction :=
  newTransaction nonce (some recipient) amount gasLimit gasPrice data

def NewContractCreation (nonce : Nat) (amount : Option Int)
    (gasLimit : Nat) (gasPrice : Option Int) (data : Bytes) : Transaction :=
  newTransaction nonce none amount gasLimit gasPrice data

/-- The method `tx.WithSignature(signer, sig)` of go-ethereum: the signer turns
the signature into `(r, s, v)`, which are set on a copy of the transaction. -/
def Transaction.WithSignature (lib : Lib) (tx : Transaction) (sig : Bytes) :
    Except Error Transaction :=
  match lib.SignatureValues tx sig with
  | .error err => .error err
  | .ok (r, s, v) => .ok { tx with R := r, S := s, V := v }

/-! ## `prepareSendTxArgs`, `prepareCallMessage`, `prepareTransaction` -/

def prepareSendTxArgs (args : SendTxArgs) : Except Error SendTxArgs :=
  let args := if args.Gas = 0 then args else args
  let args := if args.GasPrice = none then { args with GasPrice := some 0 } else args
  let args := if args.Value = none then { args with Value := some 0 } else args
  .ok args

def prepareCallMessage (lib : Lib) (args : SendTxArgs) (_ks : KeyStore) :
    Except Error Message :=
  match prepareSendTxArgs args with
  | .error err => .error err
  | .ok args =>
    .ok { From := args.From
          To := args.To
          Nonce := 0
          Amount := 0
          GasLimit := args.Gas
          GasPrice := 0
          Data := lib.FromHex args.Data
          CheckNonce := false }

/-- The transaction of `prepareTransaction` before it is signed (the nonce
default and the choice of constructor). -/
def unsignedTransaction (lib : Lib) (args : SendTxArgs) (state : State) : Transaction :=
  let args :=
    if args.Nonce = none then { args with Nonce := some (state.GetPoolNonce args.From) }
    else args
  match args.To with
  | none =>
    NewContractCreation (args.Nonce.getD 0) args.Value args.Gas args.GasPrice
      (lib.FromHex args.Data)
  | some recipient =>
    NewTransaction (args.Nonce.getD 0) recipient args.Value args.Gas args.GasPrice
      (lib.FromHex args.Data)

def prepareTransaction (lib : Lib) (args : SendTxArgs) (state : State) (ks : KeyStore) :
    Except Error Transaction :=
  match prepareSendTxArgs args with
  | .error err => .error err
  | .ok args =>
    let tx := unsignedTransaction lib args state
    match ks.Find { Address := args.From, URL := "" } with
    | .error err => .error err
    | .ok account =>
      match ks.SignHash account (lib.SignerHash tx) with
      | .error err => .error err
      | .ok signature =>
        match tx.WithSignature lib signature with
        | .error err => .error err
        | .ok signedTx => .ok signedTx

/-! ## `hexutil.Encode` -/

/-- The hexadecimal digit of a value under 16, in lower case. -/
def hexDigit (n : Nat) : Char := "0123456789abcdef".data.getD n (Char.ofNat 48)

/-- The two hexadecimal digits of a byte. -/
def hexByte (b : Nat) : List Char := [hexDigit (b / 16 % 16), hexDigit (b % 16)]

/-- The function `hexutil.Encode` of go-ethereum: `0x` followed by two
hexadecimal digits for every byte. -/
def hexutilEncode (b : Bytes) : String := "0x" ++ String.mk (b.flatMap hexByte)

/-! ## The handlers

A handler gets the response writer and the messages sent on the submission
channel so far, and gives both back.  Logging has no effect on either and is
left out.  The two handlers that slice the path of the request panic when the
path is shorter than the route, and give nothing back then. -/

/-- What a handler leaves behind: the response and the submission channel. -/
structure Outcome where
  w : ResponseWriter
  submitCh : List Bytes
deriving DecidableEq, Repr

/-- The path parameter `r.URL.Path[n:]`: the path without its first `n` bytes,
and `none` when the path has fewer than `n` bytes, where the slice is out of
range and the handler panics. -/
def pathParam (r : Request) (n : Nat) : Option GoString :=
  if n ≤ r.Path.length then some (r.Path.drop n) else none

/-- The handler of `GET /account/{address}`; `none` when it panics on the slice
of the path. -/
def accountHandler (lib : Lib) (w : ResponseWriter) (r : Request) (m : Service)
    (submitCh : List Bytes) : Option Outcome :=
  match pathParam r "/account/".length with
  | none => none
  | some param =>
    let address := lib.HexToAddress param
    let balance := m.state.GetBalance address
    let nonce := m.state.GetNonce address
    let code := hexutilEncode (m.state.GetCode address)
    let code := if code = "0x" then "" else code
    let account : JsonAccount :=
      { Address := lib.AddressHex address
        Balance := balance
        Nonce := nonce
        Code := code }
    match lib.MarshalAccount account with
    | .error err => some ⟨httpError w err StatusInternalServerError, submitCh⟩
    | .ok js => some ⟨(w.SetHeader "Content-Type" "application/json").Write js, submitCh⟩

def callHandler (lib : Lib) (w : ResponseWriter) (r : Request) (m : Service)
    (submitCh : List Bytes) : Outcome :=
  match lib.DecodeSendTxArgs r.Body with
  | .error err => ⟨httpError w err StatusInternalServerError, submitCh⟩
  | .ok txArgs =>
    match prepareCallMessage lib txArgs m.keyStore with
    | .error err => ⟨httpError w err StatusInternalServerError, submitCh⟩
    | .ok callMessage =>
      match m.state.Call callMessage with
      | .error err => ⟨httpError w err StatusInternalServerError, submitCh⟩
      | .ok data =>
        let res : JsonCallRes := { Data := lib.HexEncode data }
        match lib.MarshalCallRes res with
        | .error err => ⟨httpError w err StatusInternalServerError, submitCh⟩
        | .ok js => ⟨(w.SetHeader "Content-Type" "application/json").Write js, submitCh⟩

def transactionHandler (lib : Lib) (w : ResponseWriter) (r : Request) (m : Service)
    (submitCh : List Bytes) : Outcome :=
  match lib.DecodeSendTxArgs r.Body with
  | .error err => ⟨httpError w err StatusInternalServerError, submitCh⟩
  | .ok txArgs =>
    match prepareTransaction lib txArgs m.state m.keyStore with
    | .error err => ⟨httpError w err StatusInternalServerError, submitCh⟩
    | .ok tx =>
      match m.state.CheckTx tx with
      | some err => ⟨httpError w err StatusInternalServerError, submitCh⟩
      | none =>
        match lib.RlpEncode tx with
        | .error err => ⟨httpError w err StatusInternalServerError, submitCh⟩
        | .ok data =>
          let submitCh := submitCh ++ [data]
          let res : JsonTxRes := { TxHash := lib.HashHex (lib.TxHash tx) }
          match lib.MarshalTxRes res with
          | .error err => ⟨httpError w err StatusInternalServerError, submitCh⟩
          | .ok js => ⟨(w.SetHeader "Content-Type" "application/json").Write js, submitCh⟩

def rawTransactionHandler (lib : Lib) (w : ResponseWriter) (r : Request) (m : Service)
    (submitCh : List Bytes) : Outcome :=
  match r.Body with
  | .error err => ⟨httpError w err StatusInternalServerError, submitCh⟩
  | .ok sBody =>
    match lib.HexDecode sBody with
    | .error err => ⟨httpError w err StatusInternalServerError, submitCh⟩
    | .ok rawTxBytes =>
      match lib.RlpDecode rawTxBytes with
      | .error _ => ⟨w, submitCh⟩
      | .ok t =>
        match m.state.CheckTx t with
        | some err => ⟨httpError w err StatusInternalServerError, submitCh⟩
        | none =>
          let submitCh := submitCh ++ [rawTxBytes]
          let res : JsonTxRes := { TxHash := lib.HashHex (lib.TxHash t) }
          match lib.MarshalTxRes res with
          | .error err => ⟨httpError w err StatusInternalServerError, submitCh⟩
          | .ok js => ⟨(w.SetHeader "Content-Type" "application/json").Write js, submitCh⟩

/-- The `JsonReceipt` that `transactionReceiptHandler` marshals: the struct
literal followed by the replacement of nil logs. -/
def jsonReceiptOf (lib : Lib) (txHash : Hash) (sender : Address) (tx : Transaction)
    (receipt : Receipt) : JsonReceipt :=
  let jsonReceipt : JsonReceipt :=
    { Root := lib.BytesToHash receipt.PostState
      TransactionHash := txHash
      From := sender
      To := tx.Recipient
      GasUsed := receipt.GasUsed
      CumulativeGasUsed := receipt.CumulativeGasUsed
      ContractAddress := receipt.ContractAddress
      Logs := receipt.Logs
      LogsBloom := receipt.Bloom
      Status := receipt.Status }
  if receipt.Logs = none then { jsonReceipt with Logs := some [] } else jsonReceipt

/-- The handler of `GET /tx/{tx_hash}`; `none` when it panics on the slice of
the path. -/
def transactionReceiptHandler (lib : Lib) (w : ResponseWriter) (r : Request) (m : Service)
    (submitCh : List Bytes) : Option Outcome :=
  match pathParam r "/tx/".length with
  | none => none
  | some param =>
    let txHash := lib.HexToHash param
    match m.state.GetTransaction txHash with
    | .error err => some ⟨httpError w err StatusInternalServerError, submitCh⟩
    | .ok tx =>
      match m.state.GetReceipt txHash with
      | .error err => some ⟨httpError w err StatusInternalServerError, submitCh⟩
      | .ok receipt =>
        match lib.Sender tx with
        | .error err => some ⟨httpError w err StatusInternalServerError, submitCh⟩
        | .ok sender =>
          let jsonReceipt := jsonReceiptOf lib txHash sender tx receipt
          match lib.MarshalReceipt jsonReceipt with
          | .error err => some ⟨httpError w err StatusInternalServerError, submitCh⟩
          | .ok js =>
            some ⟨(w.SetHeader "Content-Type" "application/json").Write js, submitCh⟩

/-! ## Configuration (`src/config`)

`time.Duration` is its number of nanoseconds and `int` is `Int`.  The default
data directory is read from the environment of the process when the package is
loaded, so it is a parameter here. -/

/-- The configuration of a Huron node, `HuronConfig`. -/
structure HuronConfig where
  DataDir : String
  BindAddr : String
  ServiceAddr : String
  Heartbeat : Int
  TCPTimeout : Int
  CacheSize : Int
  SyncLimit : Int
  EnableFastSync : Bool
  MaxPool : Int
  Store : Bool
  Bootstrap : Bool
deriving DecidableEq, Repr

def Millisecond : Int := 1000000

def defaultNodeAddr : String := "127.0.0.1:1337"
def defaultHuronAPIAddr : String := ":8000"
def defaultHeartbeat : Int := 500 * Millisecond
def defaultTCPTimeout : Int := 1000 * Millisecond
def defaultCacheSize : Int := 50000
def defaultSyncLimit : Int := 1000
def defaultEnableFastSync : Bool := false
def defaultMaxPool : Int := 2

/-- The variable `defaultHuronDir`, for the default data directory of the process. -/
def defaultHuronDir (DefaultDataDir : String) : String := DefaultDataDir ++ "/huron"

def DefaultHuronConfig (DefaultDataDir : String) : HuronConfig :=
  { DataDir := defaultHuronDir DefaultDataDir
    BindAddr := defaultNodeAddr
    ServiceAddr := defaultHuronAPIAddr
    Heartbeat := defaultHeartbeat
    TCPTimeout := defaultTCPTimeout
    CacheSize := defaultCacheSize
    SyncLimit := defaultSyncLimit
    EnableFastSync := defaultEnableFastSync
    MaxPool := defaultMaxPool
    Store := false
    Bootstrap := false }

/-- The method `HuronConfig.SetDataDir`; the result is the receiver after the call. -/
def HuronConfig.SetDataDir (DefaultDataDir : String) (c : HuronConfig) (datadir : String) :
    HuronConfig :=
  if c.DataDir = defaultHuronDir DefaultDataDir then { c with DataDir := datadir } else c

/-- The node part of the configuration of the Huron library: the fields that
`ToRealHuronConfig` assigns, and `Others` for the ones it leaves alone. -/
structure RealNodeConfig where
  HeartbeatTimeout : Int
  TCPTimeout : Int
  CacheSize : Int
  SyncLimit : Int
  EnableFastSync : Bool
  Bootstrap : Bool
  Others : List (String × String)
deriving DecidableEq, Repr

/-- The configuration of the Huron library, `huron.HuronConfig`: the fields that
`ToRealHuronConfig` assigns, and `Others` for the ones it leaves alone. -/
structure RealHuronConfig where
  DataDir : String
  BindAddr : String
  ServiceAddr : String
  MaxPool : Int
  Store : Bool
  NodeConfig : RealNodeConfig
  Others : List (String × String)
deriving DecidableEq, Repr

/-- The method `HuronConfig.ToRealHuronConfig`, given the library's
`NewDefaultConfig()`; the result is the receiver after the call and the
configuration returned. -/
def HuronConfig.ToRealHuronConfig (c : HuronConfig) (NewDefaultConfig : RealHuronConfig) :
    HuronConfig × RealHuronConfig :=
  let huronConfig := NewDefaultConfig
  let huronConfig := { huronConfig with DataDir := c.DataDir }
  let huronConfig := { huronConfig with BindAddr := c.BindAddr }
  let huronConfig := { huronConfig with ServiceAddr := c.ServiceAddr }
  let huronConfig := { huronConfig with MaxPool := c.MaxPool }
  let huronConfig := { huronConfig with Store := c.Store }
  let huronConfig :=
    { huronConfig with NodeConfig := { huronConfig.NodeConfig with HeartbeatTimeout := c.Heartbeat } }
  let huronConfig :=
    { huronConfig with NodeConfig := { huronConfig.NodeConfig with TCPTimeout := c.TCPTimeout } }
  let huronConfig :=
    { huronConfig with NodeConfig := { huronConfig.NodeConfig with CacheSize := c.CacheSize } }
  let huronConfig :=
    { huronConfig with NodeConfig := { huronConfig.NodeConfig with SyncLimit := c.SyncLimit } }
  let huronConfig :=
    { huronConfig with
      NodeConfig := { huronConfig.NodeConfig with EnableFastSync := c.EnableFastSync } }
  let huronConfig :=
    { huronConfig with NodeConfig := { huronConfig.NodeConfig with Bootstrap := c.Bootstrap } }
  (c, huronConfig)

/-- The fields of `EthConfig` that `NewEngine` reads. -/
structure EthConfig where
  DbFile : String
  Cache : Int
  Genesis : String
  Keystore : String
  EthAPIAddr : String
  PwdFile : String
deriving DecidableEq, Repr

/-- The type `RaftConfig`, of which the sources here only call `SetDataDir`. -/
structure RaftConfig where
  Settings : List (String × String)
deriving DecidableEq, Repr

/-- The top level configuration, `BaseConfig`. -/
structure BaseConfig where
  DataDir : String
  LogLevel : String
deriving DecidableEq, Repr

/-- The configuration of a node, `Config`: `BaseConfig` is embedded, the three
sub-configurations are pointers. -/
structure Config extends BaseConfig where
  Eth : Option EthConfig
  Huron : Option HuronConfig
  Raft : Option RaftConfig
deriving DecidableEq, Repr

/-- What `config.go` uses from files that are not among the sources: the
default data directory of the process, and the defaults and the `SetDataDir`
methods of `EthConfig` and `RaftConfig`. -/
structure ConfigDeps where
  DefaultDataDir : String
  DefaultEthConfig : EthConfig
  DefaultRaftConfig : RaftConfig
  EthSetDataDir : EthConfig → String → EthConfig
  RaftSetDataDir : RaftConfig → String → RaftConfig

def defaultLogLevel : String := "debug"

def DefaultBaseConfig (deps : ConfigDeps) : BaseConfig :=
  { DataDir := deps.DefaultDataDir
    LogLevel := defaultLogLevel }

def DefaultConfig (deps : ConfigDeps) : Config :=
  { toBaseConfig := DefaultBaseConfig deps
    Eth := some deps.DefaultEthConfig
    Huron := some (DefaultHuronConfig deps.DefaultDataDir)
    Raft := some deps.DefaultRaftConfig }

/-- The method `Config.SetDataDir`; the result is the receiver after the call. -/
def Config.SetDataDir (deps : ConfigDeps) (c : Config) (datadir : String) : Config :=
  let c := { c with DataDir := datadir }
  let c :=
    match c.Eth with
    | some eth => { c with Eth := some (deps.EthSetDataDir eth (datadir ++ "/eth")) }
    | none => c
  let c :=
    match c.Huron with
    | some huron =>
      { c with Huron := some (huron.SetDataDir deps.DefaultDataDir (datadir ++ "/huron")) }
    | none => c
  let c :=
    match c.Raft with
    | some raft => { c with Raft := some (deps.RaftSetDataDir raft (datadir ++ "/raft")) }
    | none => c
  c

/-! ## The flags of `run huron` (`cmd/shl/commands/run/huron.go`) -/

/-- The fields of `HuronConfig`. -/
inductive HuronField where
  | DataDir | BindAddr | ServiceAddr | Heartbeat | TCPTimeout | CacheSize | SyncLimit
  | EnableFastSync | MaxPool | Store | Bootstrap
deriving DecidableEq, Repr

/-- The `mapstructure` tag of each field of `HuronConfig`. -/
def HuronField.mapstructure : HuronField → String
  | .DataDir => "datadir"
  | .BindAddr => "listen"
  | .ServiceAddr => "service-listen"
  | .Heartbeat => "heartbeat"
  | .TCPTimeout => "timeout"
  | .CacheSize => "cache-size"
  | .SyncLimit => "sync-limit"
  | .EnableFastSync => "fast-sync"
  | .MaxPool => "max-pool"
  | .Store => "store"
  | .Bootstrap => "bootstrap"

/-- The key from which a field of `Config.Huron` is unmarshalled: the tag of
`Huron` in `Config`, a dot, and the tag of the field. -/
def HuronField.key (f : HuronField) : String := "huron." ++ f.mapstructure

/-- The flags that `AddHuronFlags` registers, in order: the name of each flag
with the field of `config.Huron` that supplies its default. -/
def AddHuronFlags : List (String × HuronField) :=
  [ ("huron.datadir", .DataDir),
    ("huron.listen", .BindAddr),
    ("huron.service-listen", .ServiceAddr),
    ("huron.heartbeat", .Heartbeat),
    ("huron.timeout", .TCPTimeout),
    ("huron.cache-size", .CacheSize),
    ("huron.sync-limit", .SyncLimit),
    ("huron.enable-fast-sync", .EnableFastSync),
    ("huron.max-pool", .MaxPool),
    ("huron.store", .Store),
    ("huron.bootstrap", .Bootstrap) ]

/-! ## The version string (`src/version`)

The version strings are sliced, so they are byte strings. -/

namespace version

def Maj : GoString := ascii "0"
def Min : GoString := ascii "2"
def Fix : GoString := ascii "1"

/-- The value of the variable `Version` before `init` runs. -/
def Version : GoString := ascii "0.2.1"

/-- The function `init` of the package, for the values the linker gave
`GitBranch` and `GitCommit`: the value of `Version` afterwards, or `none` when
the slice `GitCommit[:8]` is out of range and the program panics. -/
def init (GitBranch GitCommit : GoString) : Option GoString :=
  let Version :=
    if GitBranch ≠ ascii "" ∧ GitBranch ≠ ascii "master" then
      Version ++ (ascii "-" ++ GitBranch)
    else Version
  if GitCommit ≠ ascii "" then
    if 8 ≤ GitCommit.length then some (Version ++ (ascii "-" ++ GitCommit.take 8))
    else none
  else some Version

end version

/-! ## The engine (`src/engine`, `src/consensus`, `run huron`)

The engine only calls its collaborators, so a run of `NewEngine` or of
`Engine.Run` is described by the calls it makes, in order, and by what it
returns. -/

/-- The interface `Consensus`: what `Init` returns for a state and a service,
what `Run` returns when it returns, and what `Info` returns. -/
structure Consensus where
  Init : State → Service → Option Error
  Run : Option Error
  Info : Except Error (List (String × String))

/-- The struct `Engine`. -/
structure Engine where
  state : State
  service : Service
  consensus : Consensus

/-- The calls on the collaborators of the engine.  The first six are the ones
that occur in `engine.go`; `ServiceStop`, `CloseSubmitCh` and `Release` stand
for stopping the service, closing the submission channel and releasing a
component that was built. -/
inductive EngineStep where
  | NewState | NewService | ConsensusInit | SetInfoCallback
  | GoServiceRun | ConsensusRun
  | ServiceStop | CloseSubmitCh | Release
deriving DecidableEq, Repr

/-- The constructors `state.NewState` and `service.NewService`, which are not
among the sources: the first may fail, the second returns a service.  The
logger and the submission channel, which `NewEngine` only passes on, are left
out of their arguments. -/
structure EngineDeps where
  NewState : String → Int → String → Except Error State
  NewService : String → String → String → State → Service

/-- The function `NewEngine`: the calls it makes, and what it returns, `none`
when it panics on the nil `config.Eth`. -/
def NewEngine (deps : EngineDeps) (config : Config) (consensus : Consensus) :
    List EngineStep × Option (Except Error Engine) :=
  match config.Eth with
  | none => ([], none)
  | some eth =>
    match deps.NewState eth.DbFile eth.Cache eth.Genesis with
    | .error err => ([.NewState], some (.error err))
    | .ok state =>
      let service := deps.NewService eth.Keystore eth.EthAPIAddr eth.PwdFile state
      match consensus.Init state service with
      | some err => ([.NewState, .NewService, .ConsensusInit], some (.error err))
      | none =>
        let engine : Engine :=
          { state := state
            service := service
            consensus := consensus }
        ([.NewState, .NewService, .ConsensusInit, .SetInfoCallback], some (.ok engine))

/-- The method `Engine.Run`, for a consensus whose `Run` returns: the calls it
makes and what it returns. -/
def Engine.Run (e : Engine) : List EngineStep × Option Error :=
  let _ := e.consensus.Run
  ([.GoServiceRun, .ConsensusRun], none)

/-- The struct `InmemHuron`, without its logger and the handles that `Init` sets. -/
structure InmemHuron where
  config : Option HuronConfig

def NewInmemHuron (config : Option HuronConfig) : InmemHuron :=
  { config := config }

/-- The method `InmemHuron.Run`, once `b.huron.Run()` has returned. -/
def InmemHuron.Run (_b : InmemHuron) : Option Error :=
  none

/-- An `InmemHuron` seen through the interface `Consensus`.  `Init` and `Info`
go through the Huron library and are given. -/
def InmemHuron.toConsensus (b : InmemHuron) (init : State → Service → Option Error)
    (info : Except Error (List (String × String))) : Consensus :=
  { Init := init
    Run := b.Run
    Info := info }

/-- The function `runHuron`: what the command returns, `none` when it panics. -/
def runHuron (deps : EngineDeps) (config : Config) (init : State → Service → Option Error)
    (info : Except Error (List (String × String))) : Option (Option Error) :=
  let huron := NewInmemHuron config.Huron
  match (NewEngine deps config (huron.toConsensus init info)).2 with
  | none => none
  | some (.error err) => some (some ("Error building Engine: " ++ err))
  | some (.ok engine) =>
    let _ := engine.Run
    some none

/-! ## Reading a response

Every handler ends with the same steps: marshal the result, answer 500 with the
error text when that fails, and write the JSON otherwise. -/

/-- The response that the closing steps of a handler write for the outcome of
`json.Marshal`. -/
def jsonResponse (w : ResponseWriter) (marshalled : Except Error String) : ResponseWriter :=
  match marshalled with
  | .error err => httpError w err StatusInternalServerError
  | .ok js => (w.SetHeader "Content-Type" "application/json").Write js

/-! ## A concrete environment

A small instance of the collaborators, on which the definitions above can be
evaluated.  The keystore holds the key of account 10 only; the pool nonce of
that account is 7; the state rejects nonces under 3; RLP refuses negative
integers, as go-ethereum does; two transactions are stored with their
receipts, under the hashes 7 and 8, the second with a signature from which no
sender can be recovered; account 4 is a contract with the code `6080`. -/

def exLib : Lib where
  FromHex s := s.data.map Char.toNat
  HexToHash s := s.length
  BytesToHash b := b.sum
  HashHex h := String.mk (List.replicate h (Char.ofNat 104))
  HexDecode s := if s = "" then .error "empty hex string" else .ok (s.data.map Char.toNat)
  HexEncode b := String.mk (b.map Char.ofNat)
  RlpDecode b :=
    match b with
    | [n, g] => .ok ⟨n - 48, 0, g, none, 0, [], 1, 1, 1⟩
    | _ => .error "rlp: bad input"
  RlpEncode tx :=
    if tx.Amount < 0 ∨ tx.Price < 0 then .error "rlp: cannot encode negative *big.Int"
    else .ok [tx.AccountNonce, tx.GasLimit]
  TxHash tx := tx.AccountNonce + 1
  SignerHash tx := tx.AccountNonce
  SignatureValues _ sig :=
    match sig with
    | [r, s, v] => .ok (r, s, v)
    | _ => .error "wrong size for signature"
  Sender tx := if tx.V = 0 then .error "invalid sender" else .ok 10
  DecodeSendTxArgs b :=
    match b with
    | .error err => .error err
    | .ok "create" => .ok ⟨10, none, 0, none, none, "ab", none⟩
    | .ok "send" => .ok ⟨10, some 20, 21000, some 2, some 100, "", some 3⟩
    | .ok "replay" => .ok ⟨10, some 20, 21000, none, none, "", some 0⟩
    | .ok "negative" => .ok ⟨10, some 20, 21000, none, some (-5), "", none⟩
    | .ok "stranger" => .ok ⟨11, some 20, 21000, none, none, "", none⟩
    | .ok _ => .error "invalid character"
  MarshalTxRes res := .ok res.TxHash
  MarshalCallRes res := .ok res.Data
  MarshalReceipt jr := .ok (String.mk (List.replicate jr.TransactionHash (Char.ofNat 114)))
  HexToAddress s := s.length
  AddressHex a := String.mk (List.replicate a (Char.ofNat 97))
  MarshalAccount acc := .ok (acc.Address ++ ":" ++ acc.Code)

def exState : State where
  GetPoolNonce addr := if addr = 10 then 7 else 0
  CheckTx tx := if tx.AccountNonce < 3 then some "nonce too low" else none
  Call _ := .ok []
  GetTransaction h :=
    if h = 7 then .ok ⟨3, 2, 21000, some 20, 100, [], 1, 2, 3⟩
    else if h = 8 then .ok ⟨4, 2, 21000, some 20, 100, [], 0, 0, 0⟩
    else .error "not found"
  GetReceipt h :=
    if h = 7 then .ok ⟨[1], 1, 21000, [], none, 0, 21000⟩
    else if h = 8 then .ok ⟨[1], 1, 42000, [], some [5], 0, 21000⟩
    else .error "not found"
  GetBalance addr := if addr = 10 then 1000 else 0
  GetNonce addr := if addr = 10 then 7 else 0
  GetCode addr := if addr = 4 then [96, 128] else []

def exKeyStore : KeyStore where
  Find a :=
    if a.Address = 10 then .ok ⟨10, "keystore://10"⟩
    else .error "no key for given address or file"
  SignHash _ h := .ok [5, 6, 37 + h]

def exService : Service := ⟨exState, exKeyStore⟩

/-- The arguments of a transfer with nonce 3, from the account whose pool nonce is 7. -/
def exSend : SendTxArgs := ⟨10, some 20, 21000, some 2, some 100, "", some 3⟩

/-- The arguments of a contract creation that leaves price, value and nonce out. -/
def exCreate : SendTxArgs := ⟨10, none, 0, none, none, "ab", none⟩

/-- An instance of what `config.go` takes from the files that are not among
the sources. -/
def exConfigDeps : ConfigDeps where
  DefaultDataDir := "/home/u/.shuffle"
  DefaultEthConfig :=
    ⟨"/home/u/.shuffle/eth/chaindata", 128, "/home/u/.shuffle/eth/genesis.json",
      "/home/u/.shuffle/eth/keystore", ":8080", "/home/u/.shuffle/eth/pwd.txt"⟩
  DefaultRaftConfig := ⟨[]⟩
  EthSetDataDir eth datadir := { eth with DbFile := datadir ++ "/chaindata" }
  RaftSetDataDir _ datadir := ⟨[("dir", datadir)]⟩

/-- The default configuration with the Huron directory set by hand. -/
def exCustomConfig : Config :=
  { DefaultConfig exConfigDeps with
    Huron := some { DefaultHuronConfig "/home/u/.shuffle" with DataDir := "/srv/huron" } }

/-- The defaults of the Huron library, as far as they matter here. -/
def exRealDefault : RealHuronConfig :=
  ⟨"", "", "", 0, false, ⟨0, 0, 0, 0, false, false, [("log", "info")]⟩, [("loadpeers", "true")]⟩

/-- A Huron configuration in which every field differs from the defaults above. -/
def exHuronConfig : HuronConfig :=
  ⟨"/srv/huron", "10.0.0.1:1337", ":8001", 7, 8, 9, 10, true, 11, true, true⟩

/-- The constructors of a node whose genesis file can be read only from the
path `genesis.json`. -/
def exEngineDeps : EngineDeps where
  NewState _ _ genesis := if genesis = "genesis.json" then .ok exState else .error "no genesis"
  NewService _ _ _ _ := exService

/-- A consensus system whose `Init` succeeds and whose `Run` returns an error. -/
def exConsensus : Consensus := ⟨fun _ _ => none, some "node crashed", .ok []⟩

/-- A consensus system whose `Init` fails. -/
def exFailingConsensus : Consensus := ⟨fun _ _ => some "init failed", none, .ok []⟩

/-- A configuration whose genesis file can be read. -/
def exConfig : Config :=
  { DefaultConfig exConfigDeps with
    Eth := some ⟨"chaindata", 128, "genesis.json", "keystore", ":8080", "pwd.txt"⟩ }

def exEngine : Engine := ⟨exState, exService, exConsensus⟩

/-! ## Theorems -/

/-- C1: `prepareSendTxArgs` never fails; an absent gas price or value becomes 0,
a present one is kept, and the sender, recipient, gas, data and nonce are those
of the arguments (so a gas of 0 stays 0). -/
theorem prepareSendTxArgs_defaults (a : SendTxArgs) :
    ∃ r, prepareSendTxArgs a = .ok r ∧
      r.GasPrice = some (a.GasPrice.getD 0) ∧
      (a.GasPrice = none → r.GasPrice = some 0) ∧
      (a.GasPrice ≠ none → r.GasPrice = a.GasPrice) ∧
      r.Value = some (a.Value.getD 0) ∧
      (a.Value = none → r.Value = some 0) ∧
      (a.Value ≠ none → r.Value = a.Value) ∧
      r.From = a.From ∧ r.To = a.To ∧ r.Gas = a.Gas ∧ r.Data = a.Data ∧
      r.Nonce = a.Nonce := by
  obtain ⟨fr, to1, gas, gp, val, data, nonce⟩ := a
  cases gp <;> cases val <;> simp [prepareSendTxArgs]

/-- What an accepted `prepareTransaction` returns: the unsigned transaction of
the defaulted arguments, with the three signature values set. -/
theorem prepareTransaction_eq_ok (lib : Lib) (a : SendTxArgs) (st : State) (ks : KeyStore)
    (tx : Transaction) (h : prepareTransaction lib a st ks = .ok tx) :
    ∃ a1 r s v, prepareSendTxArgs a = .ok a1 ∧
      tx = { unsignedTransaction lib a1 st with R := r, S := s, V := v } := by
  unfold prepareTransaction at h
  cases h0 : prepareSendTxArgs a with
  | error e => simp [h0] at h
  | ok a1 =>
    simp only [h0] at h
    cases h1 : ks.Find { Address := a1.From, URL := "" } with
    | error e => simp [h1] at h
    | ok account =>
      simp only [h1] at h
      cases h2 : ks.SignHash account (lib.SignerHash (unsignedTransaction lib a1 st)) with
      | error e => simp [h2] at h
      | ok signature =>
        simp only [h2] at h
        unfold Transaction.WithSignature at h
        cases h3 : lib.SignatureValues (unsignedTransaction lib a1 st) signature with
        | error e => simp [h3] at h
        | ok rsv =>
          obtain ⟨r, s, v⟩ := rsv
          simp only [h3] at h
          refine ⟨a1, r, s, v, rfl, ?_⟩
          injection h with h
          exact h.symm

/-- When the key of the sender is found and the signing steps succeed,
`prepareTransaction` returns the signed transaction. -/
theorem prepareTransaction_ok_of_signed (lib : Lib) (a a1 : SendTxArgs) (st : State)
    (ks : KeyStore) (account : Account) (signature : Bytes) (r s v : Int)
    (h0 : prepareSendTxArgs a = .ok a1)
    (h1 : ks.Find { Address := a1.From, URL := "" } = .ok account)
    (h2 : ks.SignHash account (lib.SignerHash (unsignedTransaction lib a1 st)) = .ok signature)
    (h3 : lib.SignatureValues (unsignedTransaction lib a1 st) signature = .ok (r, s, v)) :
    prepareTransaction lib a st ks
      = .ok { unsignedTransaction lib a1 st with R := r, S := s, V := v } := by
  simp only [prepareTransaction, h0, h1, h2, Transaction.WithSignature, h3]

/-- C3: an accepted transaction creates a contract exactly when the arguments
have no recipient, goes to the recipient of the arguments otherwise, and
carries their value and gas price (0 when absent), their gas and their
hex-decoded data. -/
theorem prepareTransaction_fields (lib : Lib) (a : SendTxArgs) (st : State) (ks : KeyStore)
    (tx : Transaction) (h : prepareTransaction lib a st ks = .ok tx) :
    (tx.Recipient = none ↔ a.To = none) ∧
    (∀ t, a.To = some t → tx.Recipient = some t) ∧
    tx.Amount = a.Value.getD 0 ∧
    tx.GasLimit = a.Gas ∧
    tx.Price = a.GasPrice.getD 0 ∧
    tx.Payload = lib.FromHex a.Data := by
  obtain ⟨a1, r, s, v, h0, rfl⟩ := prepareTransaction_eq_ok lib a st ks tx h
  obtain ⟨fr, to1, gas, gp, val, data, nonce⟩ := a
  cases gp <;> cases val <;> simp [prepareSendTxArgs] at h0 <;> subst h0 <;>
    cases nonce <;> cases to1 <;>
    simp [unsignedTransaction, NewContractCreation, NewTransaction, newTransaction]

/-- C3 at a contract creation without price, value and nonce: no recipient,
value 0, gas 0, price 0, and the decoded data. -/
theorem prepareTransaction_fields_witness :
    prepareTransaction exLib exCreate exState exKeyStore
        = .ok ⟨7, 0, 0, none, 0, [97, 98], 44, 5, 6⟩ ∧
      (((none : Option Address) = none ↔ exCreate.To = none) ∧
       (∀ t, exCreate.To = some t → (none : Option Address) = some t) ∧
       (0 : Int) = exCreate.Value.getD 0 ∧
       (0 : Nat) = exCreate.Gas ∧
       (0 : Int) = exCreate.GasPrice.getD 0 ∧
       ([97, 98] : Bytes) = exLib.FromHex exCreate.Data) :=
  ⟨by rfl,
    prepareTransaction_fields exLib exCreate exState exKeyStore
      ⟨7, 0, 0, none, 0, [97, 98], 44, 5, 6⟩ (by rfl)⟩

/-- The response of `http.Error` on a fresh writer: the status is the code and
the body is the error text followed by a newline. -/
theorem httpError_fresh (err : String) (code : Nat) :
    (httpError newResponseWriter err code).Status = some code ∧
    (httpError newResponseWriter err code).Body = err ++ "\n" := by
  constructor
  · rfl
  · show "" ++ (err ++ "\n") = err ++ "\n"
    exact String.empty_append _

/-- C4, as the code has it: when `CheckTx` returns an error, `POST /tx` and
`POST /rawtx` answer with status 500 and a body that is the text of the error
followed by a newline. -/
theorem checkTx_error_responds_500 (lib : Lib) (r : Request) (m : Service)
    (ch : List Bytes) :
    (∀ args tx e, lib.DecodeSendTxArgs r.Body = .ok args →
        prepareTransaction lib args m.state m.keyStore = .ok tx →
        m.state.CheckTx tx = some e →
        (transactionHandler lib newResponseWriter r m ch).w.Status = some 500 ∧
        (transactionHandler lib newResponseWriter r m ch).w.Body = e ++ "\n") ∧
    (∀ sBody raw t e, r.Body = .ok sBody → lib.HexDecode sBody = .ok raw →
        lib.RlpDecode raw = .ok t → m.state.CheckTx t = some e →
        (rawTransactionHandler lib newResponseWriter r m ch).w.Status = some 500 ∧
        (rawTransactionHandler lib newResponseWriter r m ch).w.Body = e ++ "\n") := by
  constructor
  · intro args tx e h1 h2 h3
    simp only [transactionHandler, h1, h2, h3]
    exact httpError_fresh e 500
  · intro sBody raw t e h1 h2 h3 h4
    simp only [rawTransactionHandler, h1, h2, h3, h4]
    exact httpError_fresh e 500

/-- C4 at two rejected requests: a `/tx` body whose nonce 0 the state refuses,
and a `/rawtx` body that decodes to a transaction of nonce 0. -/
theorem checkTx_error_responds_500_witness :
    ((transactionHandler exLib newResponseWriter ⟨ascii "/tx", .ok "replay"⟩ exService []).w.Status
        = some 500 ∧
      (transactionHandler exLib newResponseWriter ⟨ascii "/tx", .ok "replay"⟩ exService []).w.Body
        = "nonce too low" ++ "\n") ∧
    ((rawTransactionHandler exLib newResponseWriter ⟨ascii "/rawtx", .ok "05"⟩ exService []).w.Status
        = some 500 ∧
      (rawTransactionHandler exLib newResponseWriter ⟨ascii "/rawtx", .ok "05"⟩ exService []).w.Body
        = "nonce too low" ++ "\n") :=
  ⟨(checkTx_error_responds_500 exLib ⟨ascii "/tx", .ok "replay"⟩ exService []).1
      ⟨10, some 20, 21000, none, none, "", some 0⟩
      ⟨0, 0, 21000, some 20, 0, [], 37, 5, 6⟩ "nonce too low" (by rfl) (by rfl) (by rfl),
   (checkTx_error_responds_500 exLib ⟨ascii "/rawtx", .ok "05"⟩ exService []).2
      "05" [48, 53] ⟨0, 0, 53, none, 0, [], 1, 1, 1⟩ "nonce too low"
      (by rfl) (by rfl) (by rfl) (by rfl)⟩

/-- C4 as stated fails: the state refuses the transaction of this `/tx` request
(and of this `/rawtx` request), and the status of the answer is 500, not 400. -/
theorem checkTx_error_not_400 :
    exLib.DecodeSendTxArgs (.ok "replay") = .ok ⟨10, some 20, 21000, none, none, "", some 0⟩ ∧
    prepareTransaction exLib ⟨10, some 20, 21000, none, none, "", some 0⟩ exState exKeyStore
      = .ok ⟨0, 0, 21000, some 20, 0, [], 37, 5, 6⟩ ∧
    exState.CheckTx ⟨0, 0, 21000, some 20, 0, [], 37, 5, 6⟩ = some "nonce too low" ∧
    (transactionHandler exLib newResponseWriter ⟨ascii "/tx", .ok "replay"⟩ exService []).w
      = ⟨[("X-Content-Type-Options", "nosniff"), ("Content-Type", "text/plain; charset=utf-8")],
          some 500, "nonce too low\n"⟩ ∧
    (transactionHandler exLib newResponseWriter ⟨ascii "/tx", .ok "replay"⟩ exService []).w.Status
      ≠ some 400 ∧
    (rawTransactionHandler exLib newResponseWriter ⟨ascii "/rawtx", .ok "05"⟩ exService []).w.Status
      = some 500 ∧
    (rawTransactionHandler exLib newResponseWriter ⟨ascii "/rawtx", .ok "05"⟩ exService []).w.Status
      ≠ some 400 := by
  refine ⟨by rfl, by rfl, by rfl, by rfl, by decide, by rfl, by decide⟩

/-- C5, as the code has it: when the JSON body of `POST /tx` or `POST /call`
does not decode, or the body of `POST /rawtx` is not hex, the answer has status
500 and the text of the decoding error as its body. -/
theorem decode_error_responds_500 (lib : Lib) (r : Request) (m : Service)
    (ch : List Bytes) :
    (∀ e, lib.DecodeSendTxArgs r.Body = .error e →
        (transactionHandler lib newResponseWriter r m ch).w.Status = some 500 ∧
        (transactionHandler lib newResponseWriter r m ch).w.Body = e ++ "\n") ∧
    (∀ e, lib.DecodeSendTxArgs r.Body = .error e →
        (callHandler lib newResponseWriter r m ch).w.Status = some 500 ∧
        (callHandler lib newResponseWriter r m ch).w.Body = e ++ "\n") ∧
    (∀ sBody e, r.Body = .ok sBody → lib.HexDecode sBody = .error e →
        (rawTransactionHandler lib newResponseWriter r m ch).w.Status = some 500 ∧
        (rawTransactionHandler lib newResponseWriter r m ch).w.Body = e ++ "\n") := by
  refine ⟨?_, ?_, ?_⟩
  · intro e h1
    simp only [transactionHandler, h1]
    exact httpError_fresh e 500
  · intro e h1
    simp only [callHandler, h1]
    exact httpError_fresh e 500
  · intro sBody e h1 h2
    simp only [rawTransactionHandler, h1, h2]
    exact httpError_fresh e 500

/-- C5 at a body that is no JSON of `SendTxArgs`, sent to `/tx` and to `/call`,
and at an empty body sent to `/rawtx`. -/
theorem decode_error_responds_500_witness :
    ((transactionHandler exLib newResponseWriter ⟨ascii "/tx", .ok "garbage"⟩ exService []).w.Status
        = some 500 ∧
      (transactionHandler exLib newResponseWriter ⟨ascii "/tx", .ok "garbage"⟩ exService []).w.Body
        = "invalid character" ++ "\n") ∧
    ((callHandler exLib newResponseWriter ⟨ascii "/call", .ok "garbage"⟩ exService []).w.Status
        = some 500 ∧
      (callHandler exLib newResponseWriter ⟨ascii "/call", .ok "garbage"⟩ exService []).w.Body
        = "invalid character" ++ "\n") ∧
    ((rawTransactionHandler exLib newResponseWriter ⟨ascii "/rawtx", .ok ""⟩ exService []).w.Status
        = some 500 ∧
      (rawTransactionHandler exLib newResponseWriter ⟨ascii "/rawtx", .ok ""⟩ exService []).w.Body
        = "empty hex string" ++ "\n") :=
  ⟨(decode_error_responds_500 exLib ⟨ascii "/tx", .ok "garbage"⟩ exService []).1
      "invalid character" (by rfl),
   (decode_error_responds_500 exLib ⟨ascii "/call", .ok "garbage"⟩ exService []).2.1
      "invalid character" (by rfl),
   (decode_error_responds_500 exLib ⟨ascii "/rawtx", .ok ""⟩ exService []).2.2
      "" "empty hex string" (by rfl) (by rfl)⟩

/-- C5 as stated fails: a `/tx` body and a `/call` body that do not decode, and
a `/rawtx` body that is not hex, are answered with status 500; and after a
`/rawtx` body that is hex but no RLP of a transaction the handler has written
nothing at all, neither a status nor a body. -/
theorem decode_error_not_400 :
    exLib.DecodeSendTxArgs (.ok "garbage") = .error "invalid character" ∧
    (transactionHandler exLib newResponseWriter ⟨ascii "/tx", .ok "garbage"⟩ exService []).w.Status
      = some 500 ∧
    (callHandler exLib newResponseWriter ⟨ascii "/call", .ok "garbage"⟩ exService []).w.Status
      = some 500 ∧
    exLib.HexDecode "" = .error "empty hex string" ∧
    (rawTransactionHandler exLib newResponseWriter ⟨ascii "/rawtx", .ok ""⟩ exService []).w.Status
      = some 500 ∧
    exLib.HexDecode "123" = .ok [49, 50, 51] ∧
    exLib.RlpDecode [49, 50, 51] = .error "rlp: bad input" ∧
    (rawTransactionHandler exLib newResponseWriter ⟨ascii "/rawtx", .ok "123"⟩ exService []).w
      = newResponseWriter ∧
    (rawTransactionHandler exLib newResponseWriter ⟨ascii "/rawtx", .ok "123"⟩ exService []).w.Status
      ≠ some 400 := by
  refine ⟨by rfl, by rfl, by rfl, by rfl, by rfl, by rfl, by rfl, by rfl, by decide⟩

/-- C6: a `POST /tx` whose body does not decode, whose transaction cannot be
prepared or signed, whose transaction `CheckTx` rejects, or whose transaction
does not RLP-encode, and a `POST /rawtx` whose body cannot be read, is not hex,
is no RLP of a transaction, or whose transaction `CheckTx` rejects, leave the
submission channel as it was. -/
theorem error_leaves_submitCh (lib : Lib) (w : ResponseWriter) (r : Request) (m : Service)
    (ch : List Bytes) :
    (∀ e, lib.DecodeSendTxArgs r.Body = .error e →
        (transactionHandler lib w r m ch).submitCh = ch) ∧
    (∀ args e, lib.DecodeSendTxArgs r.Body = .ok args →
        prepareTransaction lib args m.state m.keyStore = .error e →
        (transactionHandler lib w r m ch).submitCh = ch) ∧
    (∀ args tx e, lib.DecodeSendTxArgs r.Body = .ok args →
        prepareTransaction lib args m.state m.keyStore = .ok tx →
        m.state.CheckTx tx = some e →
        (transactionHandler lib w r m ch).submitCh = ch) ∧
    (∀ args tx e, lib.DecodeSendTxArgs r.Body = .ok args →
        prepareTransaction lib args m.state m.keyStore = .ok tx →
        m.state.CheckTx tx = none → lib.RlpEncode tx = .error e →
        (transactionHandler lib w r m ch).submitCh = ch) ∧
    (∀ e, r.Body = .error e → (rawTransactionHandler lib w r m ch).submitCh = ch) ∧
    (∀ sBody e, r.Body = .ok sBody → lib.HexDecode sBody = .error e →
        (rawTransactionHandler lib w r m ch).submitCh = ch) ∧
    (∀ sBody raw e, r.Body = .ok sBody → lib.HexDecode sBody = .ok raw →
        lib.RlpDecode raw = .error e →
        (rawTransactionHandler lib w r m ch).submitCh = ch) ∧
    (∀ sBody raw t e, r.Body = .ok sBody → lib.HexDecode sBody = .ok raw →
        lib.RlpDecode raw = .ok t → m.state.CheckTx t = some e →
        (rawTransactionHandler lib w r m ch).submitCh = ch) := by
  refine ⟨?_, ?_, ?_, ?_, ?_, ?_, ?_, ?_⟩
  · intro e h1
    simp only [transactionHandler, h1]
  · intro args e h1 h2
    simp only [transactionHandler, h1, h2]
  · intro args tx e h1 h2 h3
    simp only [transactionHandler, h1, h2, h3]
  · intro args tx e h1 h2 h3 h4
    simp only [transactionHandler, h1, h2, h3, h4]
  · intro e h1
    simp only [rawTransactionHandler, h1]
  · intro sBody e h1 h2
    simp only [rawTransactionHandler, h1, h2]
  · intro sBody raw e h1 h2 h3
    simp only [rawTransactionHandler, h1, h2, h3]
  · intro sBody raw t e h1 h2 h3 h4
    simp only [rawTransactionHandler, h1, h2, h3, h4]

/-- C6 with two messages already on the channel: a `/tx` request from an
account whose key the keystore does not hold, a `/tx` request whose nonce the
state refuses, and a `/rawtx` request whose transaction the state refuses. -/
theorem error_leaves_submitCh_witness :
    prepareTransaction exLib ⟨11, some 20, 21000, none, none, "", none⟩ exState exKeyStore
      = .error "no key for given address or file" ∧
    (transactionHandler exLib newResponseWriter ⟨ascii "/tx", .ok "stranger"⟩ exService
      [[1, 2], [3]]).submitCh = [[1, 2], [3]] ∧
    (transactionHandler exLib newResponseWriter ⟨ascii "/tx", .ok "replay"⟩ exService
      [[1, 2], [3]]).submitCh = [[1, 2], [3]] ∧
    (rawTransactionHandler exLib newResponseWriter ⟨ascii "/rawtx", .ok "05"⟩ exService
      [[1, 2], [3]]).submitCh = [[1, 2], [3]] :=
  ⟨by rfl,
   (error_leaves_submitCh exLib newResponseWriter ⟨ascii "/tx", .ok "stranger"⟩ exService
      [[1, 2], [3]]).2.1
      ⟨11, some 20, 21000, none, none, "", none⟩ "no key for given address or file"
      (by rfl) (by rfl),
   (error_leaves_submitCh exLib newResponseWriter ⟨ascii "/tx", .ok "replay"⟩ exService
      [[1, 2], [3]]).2.2.1
      ⟨10, some 20, 21000, none, none, "", some 0⟩
      ⟨0, 0, 21000, some 20, 0, [], 37, 5, 6⟩ "nonce too low" (by rfl) (by rfl) (by rfl),
   (error_leaves_submitCh exLib newResponseWriter ⟨ascii "/rawtx", .ok "05"⟩ exService
      [[1, 2], [3]]).2.2.2.2.2.2.2
      "05" [48, 53] ⟨0, 0, 53, none, 0, [], 1, 1, 1⟩ "nonce too low"
      (by rfl) (by rfl) (by rfl) (by rfl)⟩

/-- C7, as the code has it: when the body of `POST /tx` decodes, the
transaction is prepared and signed, `CheckTx` accepts it and its RLP encoding
succeeds, the handler sends that encoding on the submission channel, once, and
answers with the JSON of the hash of the same signed transaction. -/
theorem transactionHandler_submits (lib : Lib) (w : ResponseWriter) (r : Request)
    (m : Service) (ch : List Bytes) (args : SendTxArgs) (tx : Transaction) (data : Bytes)
    (hdecode : lib.DecodeSendTxArgs r.Body = .ok args)
    (hprepare : prepareTransaction lib args m.state m.keyStore = .ok tx)
    (hcheck : m.state.CheckTx tx = none)
    (hencode : lib.RlpEncode tx = .ok data) :
    (transactionHandler lib w r m ch).submitCh = ch ++ [data] ∧
    (transactionHandler lib w r m ch).w
      = jsonResponse w (lib.MarshalTxRes { TxHash := lib.HashHex (lib.TxHash tx) }) := by
  simp only [transactionHandler, hdecode, hprepare, hcheck, hencode, jsonResponse]
  cases lib.MarshalTxRes { TxHash := lib.HashHex (lib.TxHash tx) } <;> simp

/-- C7 at a transfer of nonce 3 with one message already on the channel: the
encoding `[3, 21000]` is appended and the answer carries the hash of the
signed transaction. -/
theorem transactionHandler_submits_witness :
    (transactionHandler exLib newResponseWriter ⟨ascii "/tx", .ok "send"⟩ exService [[9]]).submitCh
      = [[9]] ++ [[3, 21000]] ∧
    (transactionHandler exLib newResponseWriter ⟨ascii "/tx", .ok "send"⟩ exService [[9]]).w
      = jsonResponse newResponseWriter
          (exLib.MarshalTxRes
            { TxHash := exLib.HashHex
                (exLib.TxHash ⟨3, 2, 21000, some 20, 100, [], 40, 5, 6⟩) }) :=
  transactionHandler_submits exLib newResponseWriter ⟨ascii "/tx", .ok "send"⟩ exService [[9]]
    exSend ⟨3, 2, 21000, some 20, 100, [], 40, 5, 6⟩ [3, 21000]
    (by rfl) (by rfl) (by rfl) (by rfl)

/-- C7 as stated fails: this `/tx` request decodes (to a transfer of value -5),
is prepared and signed, and passes `CheckTx`, but the RLP encoding of the
signed transaction fails, so the answer is 500 and nothing is sent. -/
theorem transactionHandler_encode_error_submits_nothing :
    exLib.DecodeSendTxArgs (.ok "negative")
      = .ok ⟨10, some 20, 21000, none, some (-5), "", none⟩ ∧
    prepareTransaction exLib ⟨10, some 20, 21000, none, some (-5), "", none⟩ exState exKeyStore
      = .ok ⟨7, 0, 21000, some 20, -5, [], 44, 5, 6⟩ ∧
    exState.CheckTx ⟨7, 0, 21000, some 20, -5, [], 44, 5, 6⟩ = none ∧
    exLib.RlpEncode ⟨7, 0, 21000, some 20, -5, [], 44, 5, 6⟩
      = .error "rlp: cannot encode negative *big.Int" ∧
    (transactionHandler exLib newResponseWriter ⟨ascii "/tx", .ok "negative"⟩ exService []).submitCh
      = [] ∧
    (transactionHandler exLib newResponseWriter ⟨ascii "/tx", .ok "negative"⟩ exService []).w.Status
      = some 500 ∧
    (transactionHandler exLib newResponseWriter ⟨ascii "/tx", .ok "negative"⟩ exService []).w.Body
      = "rlp: cannot encode negative *big.Int\n" := by
  refine ⟨by rfl, by rfl, by rfl, by rfl, by rfl, by rfl, by rfl⟩

/-- C8: when the body of `POST /rawtx` hex-decodes to `b`, `b` RLP-decodes to a
transaction `t` and `CheckTx` accepts `t`, the handler sends `b` itself on the
submission channel, once, and answers with the JSON of the hash of `t`. -/
theorem rawTransactionHandler_submits (lib : Lib) (w : ResponseWriter) (r : Request)
    (m : Service) (ch : List Bytes) (sBody : String) (b : Bytes) (t : Transaction)
    (hbody : r.Body = .ok sBody)
    (hhex : lib.HexDecode sBody = .ok b)
    (hrlp : lib.RlpDecode b = .ok t)
    (hcheck : m.state.CheckTx t = none) :
    (rawTransactionHandler lib w r m ch).submitCh = ch ++ [b] ∧
    (rawTransactionHandler lib w r m ch).w
      = jsonResponse w (lib.MarshalTxRes { TxHash := lib.HashHex (lib.TxHash t) }) := by
  simp only [rawTransactionHandler, hbody, hhex, hrlp, hcheck, jsonResponse]
  cases lib.MarshalTxRes { TxHash := lib.HashHex (lib.TxHash t) } <;> simp

/-- C8 at a body whose bytes `[57, 53]` decode to a transaction of nonce 9:
those bytes are what is sent, although the transaction would encode to
`[9, 53]`, and the answer is 200 with the hash of the transaction. -/
theorem rawTransactionHandler_submits_witness :
    exLib.RlpEncode ⟨9, 0, 53, none, 0, [], 1, 1, 1⟩ = .ok [9, 53] ∧
    (rawTransactionHandler exLib newResponseWriter ⟨ascii "/rawtx", .ok "95"⟩ exService [[9]]).w.Status
      = some 200 ∧
    ((rawTransactionHandler exLib newResponseWriter ⟨ascii "/rawtx", .ok "95"⟩ exService
        [[9]]).submitCh = [[9]] ++ [[57, 53]] ∧
      (rawTransactionHandler exLib newResponseWriter ⟨ascii "/rawtx", .ok "95"⟩ exService [[9]]).w
        = jsonResponse newResponseWriter
            (exLib.MarshalTxRes
              { TxHash := exLib.HashHex (exLib.TxHash ⟨9, 0, 53, none, 0, [], 1, 1, 1⟩) })) :=
  ⟨by rfl, by rfl,
   rawTransactionHandler_submits exLib newResponseWriter ⟨ascii "/rawtx", .ok "95"⟩ exService [[9]]
    "95" [57, 53] ⟨9, 0, 53, none, 0, [], 1, 1, 1⟩ (by rfl) (by rfl) (by rfl) (by rfl)⟩

/-- The text of `hexutil.Encode` is `0x` alone exactly for no bytes. -/
theorem hexutilEncode_eq_0x (b : Bytes) : hexutilEncode b = "0x" ↔ b = [] := by
  constructor
  · intro h
    cases b with
    | nil => rfl
    | cons x xs =>
      have hlen := congrArg String.length h
      simp [hexutilEncode, hexByte, String.length_append, String.length] at hlen
  · intro h
    subst h
    rfl

/-- C16: `prepareCallMessage` never fails, and its message has value 0, gas
price 0, nonce 0 and no nonce check, whatever the arguments carry for them; the
sender, the recipient, the gas limit and the data are those of the arguments. -/
theorem prepareCallMessage_readonly (lib : Lib) (a : SendTxArgs) (ks : KeyStore) :
    ∃ msg, prepareCallMessage lib a ks = .ok msg ∧
      msg.Amount = 0 ∧ msg.GasPrice = 0 ∧ msg.Nonce = 0 ∧ msg.CheckNonce = false ∧
      msg.From = a.From ∧ msg.To = a.To ∧ msg.GasLimit = a.Gas ∧
      msg.Data = lib.FromHex a.Data := by
  obtain ⟨fr, to1, gas, gp, val, data, nonce⟩ := a
  cases gp <;> cases val <;> simp [prepareCallMessage, prepareSendTxArgs]

/-- C14, evaluated: ten of the eleven flags of `AddHuronFlags` are named by the
key of the field that supplies their default; the flag
`huron.enable-fast-sync` is not, the key of `EnableFastSync` being
`huron.fast-sync`, under which no flag is registered. -/
theorem AddHuronFlags_keys :
    AddHuronFlags.filter (fun p => p.1 != p.2.key)
      = [("huron.enable-fast-sync", HuronField.EnableFastSync)] ∧
    AddHuronFlags.filter (fun p => p.1 == p.2.key)
      = [ ("huron.datadir", .DataDir), ("huron.listen", .BindAddr),
          ("huron.service-listen", .ServiceAddr), ("huron.heartbeat", .Heartbeat),
          ("huron.timeout", .TCPTimeout), ("huron.cache-size", .CacheSize),
          ("huron.sync-limit", .SyncLimit), ("huron.max-pool", .MaxPool),
          ("huron.store", .Store), ("huron.bootstrap", .Bootstrap) ] ∧
    HuronField.EnableFastSync.key = "huron.fast-sync" ∧
    (AddHuronFlags.map Prod.fst).contains "huron.fast-sync" = false := by
  refine ⟨by decide, by decide, by decide, by decide⟩

/-- C15: `Config.SetDataDir` sets the data directory of the configuration; a
Huron configuration whose directory is the default one gets the `huron`
directory under the new data directory, any other is left as it is, and no
other field of it changes; sub-configurations that are nil stay nil; for the
default configuration the Huron directory becomes the `huron` directory under
the new data directory. -/
theorem Config_SetDataDir_huron (deps : ConfigDeps) (c : Config) (d : String) :
    (c.SetDataDir deps d).DataDir = d ∧
    (c.SetDataDir deps d).LogLevel = c.LogLevel ∧
    (∀ h, c.Huron = some h → h.DataDir = defaultHuronDir deps.DefaultDataDir →
        (c.SetDataDir deps d).Huron = some { h with DataDir := d ++ "/huron" }) ∧
    (∀ h, c.Huron = some h → h.DataDir ≠ defaultHuronDir deps.DefaultDataDir →
        (c.SetDataDir deps d).Huron = some h) ∧
    (c.Huron = none → (c.SetDataDir deps d).Huron = none) ∧
    (c.Eth = none → (c.SetDataDir deps d).Eth = none) ∧
    (c.Raft = none → (c.SetDataDir deps d).Raft = none) ∧
    ((DefaultConfig deps).SetDataDir deps d).Huron
      = some { DefaultHuronConfig deps.DefaultDataDir with DataDir := d ++ "/huron" } := by
  obtain ⟨⟨dir, lvl⟩, eth, huron, raft⟩ := c
  refine ⟨?_, ?_, ?_, ?_, ?_, ?_, ?_, ?_⟩
  · cases eth <;> cases huron <;> cases raft <;> rfl
  · cases eth <;> cases huron <;> cases raft <;> rfl
  · intro h hh hd
    simp only at hh
    subst hh
    cases eth <;> cases raft <;> simp [Config.SetDataDir, HuronConfig.SetDataDir, hd]
  · intro h hh hd
    simp only at hh
    subst hh
    cases eth <;> cases raft <;> simp [Config.SetDataDir, HuronConfig.SetDataDir, hd]
  · intro hh
    simp only at hh
    subst hh
    cases eth <;> cases raft <;> rfl
  · intro hh
    simp only at hh
    subst hh
    cases huron <;> cases raft <;> rfl
  · intro hh
    simp only at hh
    subst hh
    cases eth <;> cases huron <;> rfl
  · simp [Config.SetDataDir, DefaultConfig, HuronConfig.SetDataDir, DefaultHuronConfig]

/-- C15 at the default configuration, whose Huron directory follows the new
data directory, and at a configuration whose Huron directory was set by hand,
which keeps it. -/
theorem Config_SetDataDir_huron_witness :
    ((DefaultConfig exConfigDeps).SetDataDir exConfigDeps "/data").DataDir = "/data" ∧
    ((DefaultConfig exConfigDeps).SetDataDir exConfigDeps "/data").Huron
      = some { DefaultHuronConfig "/home/u/.shuffle" with DataDir := "/data" ++ "/huron" } ∧
    (exCustomConfig.SetDataDir exConfigDeps "/data").Huron
      = some { DefaultHuronConfig "/home/u/.shuffle" with DataDir := "/srv/huron" } :=
  ⟨(Config_SetDataDir_huron exConfigDeps (DefaultConfig exConfigDeps) "/data").1,
   (Config_SetDataDir_huron exConfigDeps (DefaultConfig exConfigDeps) "/data").2.2.1
      (DefaultHuronConfig "/home/u/.shuffle") (by rfl) (by decide),
   (Config_SetDataDir_huron exConfigDeps exCustomConfig "/data").2.2.2.1
      { DefaultHuronConfig "/home/u/.shuffle" with DataDir := "/srv/huron" }
      (by rfl) (by decide)⟩

/-- C17: `ToRealHuronConfig` leaves the receiver as it is and copies each of its
eleven fields into the configuration of the library, five at the top level and
six in the node configuration; the other fields keep the defaults of the
library, and two receivers that differ give configurations that differ. -/
theorem ToRealHuronConfig_fields (c : HuronConfig) (dflt : RealHuronConfig) :
    (c.ToRealHuronConfig dflt).1 = c ∧
    (c.ToRealHuronConfig dflt).2.DataDir = c.DataDir ∧
    (c.ToRealHuronConfig dflt).2.BindAddr = c.BindAddr ∧
    (c.ToRealHuronConfig dflt).2.ServiceAddr = c.ServiceAddr ∧
    (c.ToRealHuronConfig dflt).2.MaxPool = c.MaxPool ∧
    (c.ToRealHuronConfig dflt).2.Store = c.Store ∧
    (c.ToRealHuronConfig dflt).2.NodeConfig.HeartbeatTimeout = c.Heartbeat ∧
    (c.ToRealHuronConfig dflt).2.NodeConfig.TCPTimeout = c.TCPTimeout ∧
    (c.ToRealHuronConfig dflt).2.NodeConfig.CacheSize = c.CacheSize ∧
    (c.ToRealHuronConfig dflt).2.NodeConfig.SyncLimit = c.SyncLimit ∧
    (c.ToRealHuronConfig dflt).2.NodeConfig.EnableFastSync = c.EnableFastSync ∧
    (c.ToRealHuronConfig dflt).2.NodeConfig.Bootstrap = c.Bootstrap ∧
    (c.ToRealHuronConfig dflt).2.Others = dflt.Others ∧
    (c.ToRealHuronConfig dflt).2.NodeConfig.Others = dflt.NodeConfig.Others ∧
    (∀ c1 : HuronConfig,
      (c1.ToRealHuronConfig dflt).2 = (c.ToRealHuronConfig dflt).2 → c1 = c) := by
  refine ⟨rfl, rfl, rfl, rfl, rfl, rfl, rfl, rfl, rfl, rfl, rfl, rfl, rfl, rfl, ?_⟩
  intro c1 h
  obtain ⟨a1, a2, a3, a4, a5, a6, a7, a8, a9, a10, a11⟩ := c
  obtain ⟨b1, b2, b3, b4, b5, b6, b7, b8, b9, b10, b11⟩ := c1
  simp only [HuronConfig.ToRealHuronConfig, RealHuronConfig.mk.injEq,
    RealNodeConfig.mk.injEq] at h
  obtain ⟨h1, h2, h3, h4, h5, ⟨h6, h7, h8, h9, h10, h11, -⟩, -⟩ := h
  subst h1 h2 h3 h4 h5 h6 h7 h8 h9 h10 h11
  rfl

/-- C17 on a configuration in which every field differs from the defaults of
the library. -/
theorem ToRealHuronConfig_example :
    exHuronConfig.ToRealHuronConfig exRealDefault
      = (exHuronConfig,
          ⟨"/srv/huron", "10.0.0.1:1337", ":8001", 11, true,
            ⟨7, 8, 9, 10, true, true, [("log", "info")]⟩, [("loadpeers", "true")]⟩) := by
  rfl

/-- C19: the version string starts as `Maj.Min.Fix`; when the commit is empty
or has at least 8 bytes, `init` leaves `0.2.1`, followed by a dash and the
branch when the branch is neither empty nor `master`, followed by a dash and the
first 8 bytes of the commit when the commit is not empty; when the commit is
not empty and shorter than 8 bytes, the slice is out of range and `init` fails. -/
theorem version_init (b c : GoString) :
    version.Version
      = version.Maj ++ ascii "." ++ version.Min ++ ascii "." ++ version.Fix ∧
    version.Version = ascii "0.2.1" ∧
    (c = [] ∨ 8 ≤ c.length →
      version.init b c
        = some (ascii "0.2.1"
            ++ (if b ≠ [] ∧ b ≠ ascii "master" then ascii "-" ++ b else [])
            ++ (if c ≠ [] then ascii "-" ++ c.take 8 else []))) ∧
    (c ≠ [] → c.length < 8 → version.init b c = none) := by
  have hempty : ascii "" = [] := by rfl
  refine ⟨by rfl, by rfl, ?_, ?_⟩
  · intro hc
    unfold version.init
    rw [hempty]
    by_cases hb : b ≠ [] ∧ b ≠ ascii "master"
    · by_cases hcn : c ≠ []
      · have h8 : 8 ≤ c.length := by
          rcases hc with h | h
          · exact absurd h hcn
          · exact h
        rw [if_pos hb, if_pos hcn, if_pos h8, if_pos hb, if_pos hcn]
        simp only [version.Version, List.append_assoc]
      · rw [if_pos hb, if_neg hcn, if_pos hb, if_neg hcn]
        simp only [version.Version, List.append_assoc, List.append_nil]
    · by_cases hcn : c ≠ []
      · have h8 : 8 ≤ c.length := by
          rcases hc with h | h
          · exact absurd h hcn
          · exact h
        rw [if_neg hb, if_pos hcn, if_pos h8, if_neg hb, if_pos hcn]
        simp only [version.Version, List.append_assoc, List.append_nil, List.nil_append]
      · rw [if_neg hb, if_neg hcn, if_neg hb, if_neg hcn]
        simp only [version.Version, List.append_nil]
  · intro hcn hlt
    unfold version.init
    rw [hempty]
    have h8 : ¬ 8 ≤ c.length := by omega
    rw [if_pos hcn, if_neg h8]

/-- C19 on a build from the branch `develop` at a full commit hash, on a build
from `master`, on a build without linker values, and on a build whose commit
has three bytes. -/
theorem version_init_witness :
    version.init (ascii "develop") (ascii "0123456789abcdef")
      = some (ascii "0.2.1-develop-01234567") ∧
    version.init (ascii "master") (ascii "0123456789abcdef") = some (ascii "0.2.1-01234567") ∧
    version.init [] [] = some (ascii "0.2.1") ∧
    version.init (ascii "develop") (ascii "abc") = none :=
  ⟨((version_init (ascii "develop") (ascii "0123456789abcdef")).2.2.1
      (Or.inr (by decide))).trans (by rfl),
   ((version_init (ascii "master") (ascii "0123456789abcdef")).2.2.1
      (Or.inr (by decide))).trans (by rfl),
   ((version_init [] []).2.2.1 (Or.inl rfl)).trans (by rfl),
   (version_init (ascii "develop") (ascii "abc")).2.2.2 (by decide) (by decide)⟩

/-- C12, as the code has it: `NewEngine` calls `NewState`, `NewService`,
`consensus.Init` on the state and the service, and `SetInfoCallback`, in this
order; it stops at a failing `NewState` or `Init` and returns that error, having
made no call after the failing one; it returns an error exactly when one of
the two fails, and an engine of the three components otherwise. -/
theorem NewEngine_steps (deps : EngineDeps) (config : Config) (consensus : Consensus)
    (eth : EthConfig) (heth : config.Eth = some eth) :
    (∀ e, deps.NewState eth.DbFile eth.Cache eth.Genesis = .error e →
        NewEngine deps config consensus = ([.NewState], some (.error e))) ∧
    (∀ st e, deps.NewState eth.DbFile eth.Cache eth.Genesis = .ok st →
        consensus.Init st (deps.NewService eth.Keystore eth.EthAPIAddr eth.PwdFile st) = some e →
        NewEngine deps config consensus
          = ([.NewState, .NewService, .ConsensusInit], some (.error e))) ∧
    (∀ st, deps.NewState eth.DbFile eth.Cache eth.Genesis = .ok st →
        consensus.Init st (deps.NewService eth.Keystore eth.EthAPIAddr eth.PwdFile st) = none →
        NewEngine deps config consensus
          = ([.NewState, .NewService, .ConsensusInit, .SetInfoCallback],
              some (.ok ⟨st, deps.NewService eth.Keystore eth.EthAPIAddr eth.PwdFile st,
                consensus⟩))) ∧
    (∀ e, (NewEngine deps config consensus).2 = some (.error e) ↔
        (deps.NewState eth.DbFile eth.Cache eth.Genesis = .error e ∨
          ∃ st, deps.NewState eth.DbFile eth.Cache eth.Genesis = .ok st ∧
            consensus.Init st (deps.NewService eth.Keystore eth.EthAPIAddr eth.PwdFile st)
              = some e)) := by
  refine ⟨?_, ?_, ?_, ?_⟩
  · intro e h1
    simp only [NewEngine, heth, h1]
  · intro st e h1 h2
    simp only [NewEngine, heth, h1, h2]
  · intro st h1 h2
    simp only [NewEngine, heth, h1, h2]
  · intro e
    simp only [NewEngine, heth]
    cases h1 : deps.NewState eth.DbFile eth.Cache eth.Genesis with
    | error e1 => simp
    | ok st =>
      cases h2 : consensus.Init st (deps.NewService eth.Keystore eth.EthAPIAddr eth.PwdFile st)
        with
      | none => simp [h2]
      | some e2 => simp [h2]

/-- C12 at a node whose state can be built: with a consensus system whose
`Init` fails, the error of `Init` comes back after three calls; with a genesis
file that cannot be read, the error of `NewState` comes back after one. -/
theorem NewEngine_steps_witness :
    NewEngine exEngineDeps exConfig exFailingConsensus
      = ([.NewState, .NewService, .ConsensusInit], some (.error "init failed")) ∧
    NewEngine exEngineDeps (DefaultConfig exConfigDeps) exConsensus
      = ([.NewState], some (.error "no genesis")) ∧
    (NewEngine exEngineDeps exConfig exConsensus).1
      = [.NewState, .NewService, .ConsensusInit, .SetInfoCallback] :=
  ⟨(NewEngine_steps exEngineDeps exConfig exFailingConsensus
      ⟨"chaindata", 128, "genesis.json", "keystore", ":8080", "pwd.txt"⟩ (by rfl)).2.1
      exState "init failed" (by rfl) (by rfl),
   (NewEngine_steps exEngineDeps (DefaultConfig exConfigDeps) exConsensus
      exConfigDeps.DefaultEthConfig (by rfl)).1 "no genesis" (by rfl),
   congrArg Prod.fst
    ((NewEngine_steps exEngineDeps exConfig exConsensus
      ⟨"chaindata", 128, "genesis.json", "keystore", ":8080", "pwd.txt"⟩ (by rfl)).2.2.1
      exState (by rfl) (by rfl))⟩

/-- C12 as stated fails: when `Init` fails after the state and the service were
built, `NewEngine` returns the error and its calls are the three constructions
only; no call releases the state or the service. -/
theorem NewEngine_releases_nothing :
    NewEngine exEngineDeps exConfig exFailingConsensus
      = ([.NewState, .NewService, .ConsensusInit], some (.error "init failed")) ∧
    EngineStep.Release ∉ (NewEngine exEngineDeps exConfig exFailingConsensus).1 := by
  have h : NewEngine exEngineDeps exConfig exFailingConsensus
      = ([.NewState, .NewService, .ConsensusInit], some (.error "init failed")) := by rfl
  refine ⟨h, ?_⟩
  rw [h]
  decide

/-- C13, as the code has it: `Engine.Run` starts `service.Run` in a goroutine
and calls `consensus.Run`; when that returns it returns, and these are all its
calls: it neither stops the service nor closes the submission channel. -/
theorem Engine_Run_steps (e : Engine) :
    (e.Run).1 = [.GoServiceRun, .ConsensusRun] ∧
    EngineStep.ServiceStop ∉ (e.Run).1 ∧
    EngineStep.CloseSubmitCh ∉ (e.Run).1 := by
  refine ⟨rfl, ?_, ?_⟩
  · show EngineStep.ServiceStop ∉ [EngineStep.GoServiceRun, EngineStep.ConsensusRun]
    decide
  · show EngineStep.CloseSubmitCh ∉ [EngineStep.GoServiceRun, EngineStep.ConsensusRun]
    decide

/-- C13 as stated fails: on an engine whose consensus system returns from
`Run`, the calls of `Engine.Run` are the start of the service and the run of
the consensus system; the service is not stopped and the channel not closed. -/
theorem Engine_Run_stops_nothing :
    exEngine.consensus.Run = some "node crashed" ∧
    (exEngine.Run).1 = [.GoServiceRun, .ConsensusRun] ∧
    ¬ (EngineStep.ServiceStop ∈ (exEngine.Run).1 ∧
        EngineStep.CloseSubmitCh ∈ (exEngine.Run).1) := by
  refine ⟨by rfl, by rfl, ?_⟩
  show ¬ (EngineStep.ServiceStop ∈ [EngineStep.GoServiceRun, EngineStep.ConsensusRun] ∧
    EngineStep.CloseSubmitCh ∈ [EngineStep.GoServiceRun, EngineStep.ConsensusRun])
  decide

/-- C18: `Engine.Run` returns nil whatever `consensus.Run` returns, also an
error; `InmemHuron.Run` returns nil; and `runHuron` returns nil whenever the
engine could be built, so that no failure of the consensus system reaches the
result of the command. -/
theorem Engine_Run_returns_nil (e : Engine) :
    (e.Run).2 = none ∧
    (∀ err, ({ e with consensus := { e.consensus with Run := some err } } : Engine).Run.2
      = none) ∧
    (∀ b : InmemHuron, b.Run = none) ∧
    (∀ deps config init info engine,
      (NewEngine deps config ((NewInmemHuron config.Huron).toConsensus init info)).2
        = some (.ok engine) →
      runHuron deps config init info = some none) := by
  refine ⟨rfl, fun _ => rfl, fun _ => rfl, ?_⟩
  intro deps config init info engine h
  simp only [runHuron, h]

/-- C18 on an engine whose consensus system returns an error from `Run`, and
on the command for a configuration with which the engine can be built. -/
theorem Engine_Run_returns_nil_witness :
    exEngine.consensus.Run = some "node crashed" ∧
    exEngine.Run = ([.GoServiceRun, .ConsensusRun], none) ∧
    runHuron exEngineDeps exConfig (fun _ _ => none) (.ok []) = some none :=
  ⟨by rfl,
   Prod.ext (by rfl) (Engine_Run_returns_nil exEngine).1,
   (Engine_Run_returns_nil exEngine).2.2.2 exEngineDeps exConfig (fun _ _ => none) (.ok [])
    ⟨exState, exService, (NewInmemHuron exConfig.Huron).toConsensus (fun _ _ => none) (.ok [])⟩
    (by rfl)⟩

/-- C2: when the key of the sender is found in the keystore, the keystore signs
the hash of the transaction and the signer accepts the signature,
`prepareTransaction` returns a transaction whose nonce is the pool nonce of the
sender when the arguments carry no nonce, and exactly the nonce of the
arguments when they carry one. -/
theorem prepareTransaction_nonce (lib : Lib) (a : SendTxArgs) (st : State) (ks : KeyStore)
    (account : Account) (signature : Bytes) (r s v : Int)
    (hfind : ks.Find { Address := a.From, URL := "" } = .ok account)
    (hsign : ks.SignHash account
        (lib.SignerHash
          (newTransaction (a.Nonce.getD (st.GetPoolNonce a.From)) a.To (some (a.Value.getD 0))
            a.Gas (some (a.GasPrice.getD 0)) (lib.FromHex a.Data)))
      = .ok signature)
    (hvalues : lib.SignatureValues
        (newTransaction (a.Nonce.getD (st.GetPoolNonce a.From)) a.To (some (a.Value.getD 0))
          a.Gas (some (a.GasPrice.getD 0)) (lib.FromHex a.Data)) signature
      = .ok (r, s, v)) :
    ∃ tx, prepareTransaction lib a st ks = .ok tx ∧
      (a.Nonce = none → tx.AccountNonce = st.GetPoolNonce a.From) ∧
      (∀ n, a.Nonce = some n → tx.AccountNonce = n) := by
  obtain ⟨fr, to1, gas, gp, val, data, nonce⟩ := a
  cases gp <;> cases val <;> cases nonce <;> cases to1 <;>
    simp only [Option.getD, newTransaction] at hfind hsign hvalues <;>
    simp [prepareTransaction, prepareSendTxArgs, unsignedTransaction, NewContractCreation,
      NewTransaction, Transaction.WithSignature, hfind, hsign, hvalues, newTransaction]

/-- C2 at a contract creation without a nonce, which gets the pool nonce 7 of
its sender, and at a transfer whose nonce 3 is below that pool nonce, which
keeps 3. -/
theorem prepareTransaction_nonce_witness :
    exState.GetPoolNonce 10 = 7 ∧
    prepareTransaction exLib exCreate exState exKeyStore
      = .ok ⟨7, 0, 0, none, 0, [97, 98], 44, 5, 6⟩ ∧
    prepareTransaction exLib exSend exState exKeyStore
      = .ok ⟨3, 2, 21000, some 20, 100, [], 40, 5, 6⟩ ∧
    (∃ tx, prepareTransaction exLib exCreate exState exKeyStore = .ok tx ∧
      (exCreate.Nonce = none → tx.AccountNonce = exState.GetPoolNonce exCreate.From) ∧
      (∀ n, exCreate.Nonce = some n → tx.AccountNonce = n)) ∧
    (∃ tx, prepareTransaction exLib exSend exState exKeyStore = .ok tx ∧
      (exSend.Nonce = none → tx.AccountNonce = exState.GetPoolNonce exSend.From) ∧
      (∀ n, exSend.Nonce = some n → tx.AccountNonce = n)) :=
  ⟨by rfl, by rfl, by rfl,
   prepareTransaction_nonce exLib exCreate exState exKeyStore ⟨10, "keystore://10"⟩
    [5, 6, 44] 5 6 44 (by rfl) (by rfl) (by rfl),
   prepareTransaction_nonce exLib exSend exState exKeyStore ⟨10, "keystore://10"⟩
    [5, 6, 40] 5 6 40 (by rfl) (by rfl) (by rfl)⟩

/-- The path parameter of a path that starts with the route is the rest of the path. -/
theorem pathParam_of_route (r : Request) (route p : GoString) (h : r.Path = route ++ p) :
    pathParam r route.length = some p := by
  simp [pathParam, h]

/-- On a path shorter than their route the two handlers that slice the path
panic: they write no response. -/
theorem short_path_panics (lib : Lib) (w : ResponseWriter) (r : Request) (m : Service)
    (ch : List Bytes) :
    (r.Path.length < 4 → transactionReceiptHandler lib w r m ch = none) ∧
    (r.Path.length < 9 → accountHandler lib w r m ch = none) := by
  have h4 : "/tx/".length = 4 := by rfl
  have h9 : "/account/".length = 9 := by rfl
  constructor
  · intro h
    have hn : ¬ 4 ≤ r.Path.length := by omega
    simp [transactionReceiptHandler, pathParam, h4, hn]
  · intro h
    have hn : ¬ 9 ≤ r.Path.length := by omega
    simp [accountHandler, pathParam, h9, hn]

/-- C9, as the code has it: for a request `GET /tx/` followed by `p`, the hash
looked up is the one parsed from `p`; when `GetTransaction` or `GetReceipt`
fails for it, and also when the sender of the stored transaction cannot be
recovered, the answer has status 500 and the text of the error; otherwise the
answer is the `JsonReceipt`. -/
theorem transactionReceiptHandler_responses (lib : Lib) (r : Request) (m : Service)
    (ch : List Bytes) (p : GoString) (hpath : r.Path = ascii "/tx/" ++ p) :
    (∀ e, m.state.GetTransaction (lib.HexToHash p) = .error e →
        ∃ out, transactionReceiptHandler lib newResponseWriter r m ch = some out ∧
          out.w.Status = some 500 ∧ out.w.Body = e ++ "\n") ∧
    (∀ tx e, m.state.GetTransaction (lib.HexToHash p) = .ok tx →
        m.state.GetReceipt (lib.HexToHash p) = .error e →
        ∃ out, transactionReceiptHandler lib newResponseWriter r m ch = some out ∧
          out.w.Status = some 500 ∧ out.w.Body = e ++ "\n") ∧
    (∀ tx receipt e, m.state.GetTransaction (lib.HexToHash p) = .ok tx →
        m.state.GetReceipt (lib.HexToHash p) = .ok receipt →
        lib.Sender tx = .error e →
        ∃ out, transactionReceiptHandler lib newResponseWriter r m ch = some out ∧
          out.w.Status = some 500 ∧ out.w.Body = e ++ "\n") ∧
    (∀ tx receipt sender, m.state.GetTransaction (lib.HexToHash p) = .ok tx →
        m.state.GetReceipt (lib.HexToHash p) = .ok receipt →
        lib.Sender tx = .ok sender →
        transactionReceiptHandler lib newResponseWriter r m ch
          = some ⟨jsonResponse newResponseWriter
              (lib.MarshalReceipt (jsonReceiptOf lib (lib.HexToHash p) sender tx receipt)),
              ch⟩) := by
  have hparam : pathParam r "/tx/".length = some p :=
    pathParam_of_route r (ascii "/tx/") p hpath
  refine ⟨?_, ?_, ?_, ?_⟩
  · intro e h1
    refine ⟨⟨httpError newResponseWriter e StatusInternalServerError, ch⟩, ?_,
      httpError_fresh e 500⟩
    simp only [transactionReceiptHandler, hparam, h1]
  · intro tx e h1 h2
    refine ⟨⟨httpError newResponseWriter e StatusInternalServerError, ch⟩, ?_,
      httpError_fresh e 500⟩
    simp only [transactionReceiptHandler, hparam, h1, h2]
  · intro tx receipt e h1 h2 h3
    refine ⟨⟨httpError newResponseWriter e StatusInternalServerError, ch⟩, ?_,
      httpError_fresh e 500⟩
    simp only [transactionReceiptHandler, hparam, h1, h2, h3]
  · intro tx receipt sender h1 h2 h3
    simp only [transactionReceiptHandler, hparam, h1, h2, h3, jsonResponse]
    cases lib.MarshalReceipt (jsonReceiptOf lib (lib.HexToHash p) sender tx receipt) <;> rfl

/-- C9 at a hash under which nothing is stored and at the hash of a stored
transaction: the first answer is 500, the second the receipt with status 200. -/
theorem transactionReceiptHandler_responses_witness :
    (∃ out, transactionReceiptHandler exLib newResponseWriter ⟨ascii "/tx/0xa", .ok ""⟩
          exService [] = some out ∧
        out.w.Status = some 500 ∧ out.w.Body = "not found" ++ "\n") ∧
    transactionReceiptHandler exLib newResponseWriter ⟨ascii "/tx/0xabcde", .ok ""⟩ exService []
      = some ⟨⟨[("Content-Type", "application/json")], some 200, "rrrrrrr"⟩, []⟩ ∧
    transactionReceiptHandler exLib newResponseWriter ⟨ascii "/tx/0xabcde", .ok ""⟩ exService []
      = some ⟨jsonResponse newResponseWriter
          (exLib.MarshalReceipt
            (jsonReceiptOf exLib (exLib.HexToHash (ascii "0xabcde")) 10
              ⟨3, 2, 21000, some 20, 100, [], 1, 2, 3⟩
              ⟨[1], 1, 21000, [], none, 0, 21000⟩)), []⟩ :=
  ⟨(transactionReceiptHandler_responses exLib ⟨ascii "/tx/0xa", .ok ""⟩ exService []
      (ascii "0xa") (by rfl)).1 "not found" (by rfl),
   by rfl,
   (transactionReceiptHandler_responses exLib ⟨ascii "/tx/0xabcde", .ok ""⟩ exService []
      (ascii "0xabcde") (by rfl)).2.2.2
      ⟨3, 2, 21000, some 20, 100, [], 1, 2, 3⟩ ⟨[1], 1, 21000, [], none, 0, 21000⟩ 10
      (by rfl) (by rfl) (by rfl)⟩

/-- C9 as stated fails: nothing is stored under the first hash and the answer
is 500, not 404; a transaction and its receipt are stored under the second
hash, the sender cannot be recovered, and the answer is again 500 and no
`JsonReceipt`. -/
theorem transactionReceiptHandler_not_404 :
    exLib.HexToHash (ascii "0xa") = 3 ∧
    exState.GetTransaction 3 = .error "not found" ∧
    exState.GetReceipt 3 = .error "not found" ∧
    transactionReceiptHandler exLib newResponseWriter ⟨ascii "/tx/0xa", .ok ""⟩ exService []
      = some ⟨⟨[("X-Content-Type-Options", "nosniff"),
            ("Content-Type", "text/plain; charset=utf-8")], some 500, "not found\n"⟩, []⟩ ∧
    (transactionReceiptHandler exLib newResponseWriter ⟨ascii "/tx/0xa", .ok ""⟩ exService
        []).map (fun out => out.w.Status) ≠ some (some 404) ∧
    exLib.HexToHash (ascii "0xabcdef") = 8 ∧
    exState.GetTransaction 8 = .ok ⟨4, 2, 21000, some 20, 100, [], 0, 0, 0⟩ ∧
    exState.GetReceipt 8 = .ok ⟨[1], 1, 42000, [], some [5], 0, 21000⟩ ∧
    transactionReceiptHandler exLib newResponseWriter ⟨ascii "/tx/0xabcdef", .ok ""⟩ exService []
      = some ⟨⟨[("X-Content-Type-Options", "nosniff"),
            ("Content-Type", "text/plain; charset=utf-8")], some 500, "invalid sender\n"⟩,
          []⟩ := by
  refine ⟨by rfl, by rfl, by rfl, by rfl, by decide, by rfl, by rfl, by rfl, by rfl⟩

/-- C10: when `GET /tx/` followed by `p` finds the transaction and the receipt
of the hash parsed from `p` and recovers the sender, it answers with a
`JsonReceipt` whose logs are never nil (the empty list for nil logs of the
receipt, the logs of the receipt otherwise), whose transaction hash is the hash
parsed from `p`, and whose gas used, cumulative gas used, contract address,
logs bloom and status are those of the stored receipt. -/
theorem transactionReceiptHandler_jsonReceipt (lib : Lib) (w : ResponseWriter) (r : Request)
    (m : Service) (ch : List Bytes) (p : GoString) (tx : Transaction) (receipt : Receipt)
    (sender : Address)
    (hpath : r.Path = ascii "/tx/" ++ p)
    (htx : m.state.GetTransaction (lib.HexToHash p) = .ok tx)
    (hreceipt : m.state.GetReceipt (lib.HexToHash p) = .ok receipt)
    (hsender : lib.Sender tx = .ok sender) :
    ∃ jr : JsonReceipt,
      transactionReceiptHandler lib w r m ch
        = some ⟨jsonResponse w (lib.MarshalReceipt jr), ch⟩ ∧
      jr.Logs ≠ none ∧
      (receipt.Logs = none → jr.Logs = some []) ∧
      (∀ logs, receipt.Logs = some logs → jr.Logs = some logs) ∧
      jr.TransactionHash = lib.HexToHash p ∧
      jr.GasUsed = receipt.GasUsed ∧
      jr.CumulativeGasUsed = receipt.CumulativeGasUsed ∧
      jr.ContractAddress = receipt.ContractAddress ∧
      jr.LogsBloom = receipt.Bloom ∧
      jr.Status = receipt.Status := by
  have hparam : pathParam r "/tx/".length = some p :=
    pathParam_of_route r (ascii "/tx/") p hpath
  refine ⟨jsonReceiptOf lib (lib.HexToHash p) sender tx receipt, ?_, ?_⟩
  · simp only [transactionReceiptHandler, hparam, htx, hreceipt, hsender, jsonResponse]
    cases lib.MarshalReceipt (jsonReceiptOf lib (lib.HexToHash p) sender tx receipt) <;> rfl
  · obtain ⟨ps, st, cgu, bloom, logs, ca, gu⟩ := receipt
    cases logs <;> simp [jsonReceiptOf]

/-- C10 at the stored receipt whose logs are nil: the `JsonReceipt` of the
answer has the empty list as its logs and the hash 7 parsed from the path. -/
theorem transactionReceiptHandler_jsonReceipt_witness :
    exLib.HexToHash (ascii "0xabcde") = 7 ∧
    jsonReceiptOf exLib 7 10 ⟨3, 2, 21000, some 20, 100, [], 1, 2, 3⟩
        ⟨[1], 1, 21000, [], none, 0, 21000⟩
      = ⟨1, 7, 10, some 20, 21000, 21000, 0, some [], [], 1⟩ ∧
    ∃ jr : JsonReceipt,
      transactionReceiptHandler exLib newResponseWriter ⟨ascii "/tx/0xabcde", .ok ""⟩ exService
          [] = some ⟨jsonResponse newResponseWriter (exLib.MarshalReceipt jr), []⟩ ∧
      jr.Logs ≠ none ∧
      ((⟨[1], 1, 21000, [], none, 0, 21000⟩ : Receipt).Logs = none → jr.Logs = some []) ∧
      (∀ logs, (⟨[1], 1, 21000, [], none, 0, 21000⟩ : Receipt).Logs = some logs →
        jr.Logs = some logs) ∧
      jr.TransactionHash = exLib.HexToHash (ascii "0xabcde") ∧
      jr.GasUsed = (⟨[1], 1, 21000, [], none, 0, 21000⟩ : Receipt).GasUsed ∧
      jr.CumulativeGasUsed = (⟨[1], 1, 21000, [], none, 0, 21000⟩ : Receipt).CumulativeGasUsed ∧
      jr.ContractAddress = (⟨[1], 1, 21000, [], none, 0, 21000⟩ : Receipt).ContractAddress ∧
      jr.LogsBloom = (⟨[1], 1, 21000, [], none, 0, 21000⟩ : Receipt).Bloom ∧
      jr.Status = (⟨[1], 1, 21000, [], none, 0, 21000⟩ : Receipt).Status :=
  ⟨by rfl, by rfl,
   transactionReceiptHandler_jsonReceipt exLib newResponseWriter
    ⟨ascii "/tx/0xabcde", .ok ""⟩ exService [] (ascii "0xabcde")
    ⟨3, 2, 21000, some 20, 100, [], 1, 2, 3⟩ ⟨[1], 1, 21000, [], none, 0, 21000⟩ 10
    (by rfl) (by rfl) (by rfl) (by rfl)⟩

/-- C11: for every path parameter `p`, `GET /account/` followed by `p` is
answered with the record of the address parsed from `p`, never with 404: the
balance and the nonce are those of the State, and the code is empty exactly
when the State has no code for the address and is its `0x`-prefixed
hexadecimal text otherwise. -/
theorem accountHandler_record (lib : Lib) (r : Request) (m : Service) (ch : List Bytes)
    (p : GoString) (hpath : r.Path = ascii "/account/" ++ p) :
    ∃ (account : JsonAccount) (out : Outcome),
      accountHandler lib newResponseWriter r m ch = some out ∧
      out.w = jsonResponse newResponseWriter (lib.MarshalAccount account) ∧
      out.submitCh = ch ∧
      out.w.Status ≠ some 404 ∧
      account.Address = lib.AddressHex (lib.HexToAddress p) ∧
      account.Balance = m.state.GetBalance (lib.HexToAddress p) ∧
      account.Nonce = m.state.GetNonce (lib.HexToAddress p) ∧
      (account.Code = "" ↔ m.state.GetCode (lib.HexToAddress p) = []) ∧
      (m.state.GetCode (lib.HexToAddress p) ≠ [] →
        account.Code = hexutilEncode (m.state.GetCode (lib.HexToAddress p))) := by
  have hparam : pathParam r "/account/".length = some p :=
    pathParam_of_route r (ascii "/account/") p hpath
  have hne : ∀ b : Bytes, hexutilEncode b ≠ "" := by
    intro b h
    have hl := congrArg String.length h
    simp [hexutilEncode, String.length_append, String.length] at hl
  refine ⟨{ Address := lib.AddressHex (lib.HexToAddress p)
            Balance := m.state.GetBalance (lib.HexToAddress p)
            Nonce := m.state.GetNonce (lib.HexToAddress p)
            Code := if hexutilEncode (m.state.GetCode (lib.HexToAddress p)) = "0x"
              then "" else hexutilEncode (m.state.GetCode (lib.HexToAddress p)) },
    ⟨jsonResponse newResponseWriter (lib.MarshalAccount
        { Address := lib.AddressHex (lib.HexToAddress p)
          Balance := m.state.GetBalance (lib.HexToAddress p)
          Nonce := m.state.GetNonce (lib.HexToAddress p)
          Code := if hexutilEncode (m.state.GetCode (lib.HexToAddress p)) = "0x"
            then "" else hexutilEncode (m.state.GetCode (lib.HexToAddress p)) }), ch⟩,
    ?_, rfl, rfl, ?_, rfl, rfl, rfl, ?_, ?_⟩
  · simp only [accountHandler, hparam, jsonResponse]
    split <;> rfl
  · simp only [jsonResponse]
    split
    · simp [httpError, ResponseWriter.Write, ResponseWriter.WriteHeader,
        ResponseWriter.SetHeader, newResponseWriter, StatusInternalServerError]
    · simp [ResponseWriter.Write, ResponseWriter.WriteHeader,
        ResponseWriter.SetHeader, newResponseWriter, StatusOK]
  · dsimp only
    by_cases hc : hexutilEncode (m.state.GetCode (lib.HexToAddress p)) = "0x"
    · rw [if_pos hc]
      exact ⟨fun _ => (hexutilEncode_eq_0x _).1 hc, fun _ => rfl⟩
    · rw [if_neg hc]
      exact ⟨fun h => absurd h (hne _), fun h => absurd ((hexutilEncode_eq_0x _).2 h) hc⟩
  · intro hcode
    have hc : hexutilEncode (m.state.GetCode (lib.HexToAddress p)) ≠ "0x" :=
      fun h => hcode ((hexutilEncode_eq_0x _).1 h)
    dsimp only
    rw [if_neg hc]

/-- C11 on two paths: the contract account 4 is answered with its code in
hexadecimal, an account unknown to the State with zero values and no code. -/
theorem accountHandler_record_witness :
    exLib.HexToAddress (ascii "0xab") = 4 ∧
    exState.GetCode 4 = [96, 128] ∧
    accountHandler exLib newResponseWriter ⟨ascii "/account/0xab", .ok ""⟩ exService []
      = some ⟨⟨[("Content-Type", "application/json")], some 200, "aaaa:0x6080"⟩, []⟩ ∧
    accountHandler exLib newResponseWriter ⟨ascii "/account/zz", .ok ""⟩ exService []
      = some ⟨⟨[("Content-Type", "application/json")], some 200, "aa:"⟩, []⟩ ∧
    (∃ (account : JsonAccount) (out : Outcome),
      accountHandler exLib newResponseWriter ⟨ascii "/account/0xab", .ok ""⟩ exService []
        = some out ∧
      out.w = jsonResponse newResponseWriter (exLib.MarshalAccount account) ∧
      out.submitCh = [] ∧
      out.w.Status ≠ some 404 ∧
      account.Address = exLib.AddressHex (exLib.HexToAddress (ascii "0xab")) ∧
      account.Balance = exState.GetBalance (exLib.HexToAddress (ascii "0xab")) ∧
      account.Nonce = exState.GetNonce (exLib.HexToAddress (ascii "0xab")) ∧
      (account.Code = "" ↔ exState.GetCode (exLib.HexToAddress (ascii "0xab")) = []) ∧
      (exState.GetCode (exLib.HexToAddress (ascii "0xab")) ≠ [] →
        account.Code = hexutilEncode (exState.GetCode (exLib.HexToAddress (ascii "0xab"))))) :=
  ⟨by rfl, by rfl, by rfl, by rfl,
   accountHandler_record exLib ⟨ascii "/account/0xab", .ok ""⟩ exService [] (ascii "0xab")
    (by rfl)⟩

end Shuffle
